import Mathlib

/-!
Verification development for the EventStreamGPT configuration / schema-unification
engine (`src/EventStream/data/config.py`, `src/EventStream/data/types.py`,
`src/EventStream/utils.py`).

The Python code is shallowly embedded: dataclasses become Lean structures,
`__post_init__` constructors become functions returning `Except String`,
Python `dict`s become insertion-ordered association lists, and exceptions
become `Except.error` values carrying the message.
-/

set_option maxHeartbeats 1000000

namespace ESGPT

/-! ## Enumerations (`src/EventStream/data/types.py`) -/

/-- `InputDFType`: the kinds of input dataframes (STATIC / EVENT / RANGE). -/
inductive InputDFType
  | static
  | event
  | range
deriving DecidableEq, Repr

/-- `InputDataType`: the kinds of data that an input dataframe column can hold. -/
inductive InputDataType
  | categorical
  | float
  | timestamp
  | boolean
deriving DecidableEq, Repr

/-- `INPUT_COL_T = Union[InputDataType, tuple[InputDataType, str]]`: the type tag
attached to a column.  The pair form always has `InputDataType.TIMESTAMP` as its
first component (that is the only pair shape the `_unify_schema` match accepts),
so we only record the format string.  A Python string such as `"categorical"` is
equal (as a `str`-subclass `StrEnum`) to the corresponding enum member, so both
spellings map to the same `ColDT` value. -/
inductive ColDT
  | plain (t : InputDataType)
  | tsWithFormat (fmt : String)
deriving DecidableEq, Repr

/-- `TemporalityType`: how a measure varies with respect to time. -/
inductive TemporalityType
  | static
  | dynamic
  | functional_time_dependent
deriving DecidableEq, Repr

/-- `DataModality`: the modality of a data element. -/
inductive DataModality
  | dropped
  | single_label_classification
  | multi_label_classification
  | multivariate_regression
  | univariate_regression
deriving DecidableEq, Repr

/-! ## Association lists standing for Python `dict`s

Python dicts are insertion ordered; assignment to an existing key replaces the
value in place, assignment to a fresh key appends.  `alookup` is `d[k]` /
`k in d`, `aset` is `d[k] = v`. -/

def alookup {α : Type} (l : List (String × α)) (k : String) : Option α :=
  match l with
  | [] => none
  | (k2, v) :: rest => if k2 = k then some v else alookup rest k

def aset {α : Type} (l : List (String × α)) (k : String) (v : α) :
    List (String × α) :=
  match l with
  | [] => [(k, v)]
  | (k2, v2) :: rest => if k2 = k then (k, v) :: rest else (k2, v2) :: aset rest k v

/-- `Except` value is an error. -/
def isErr {ε α : Type} : Except ε α → Bool
  | .error _ => true
  | .ok _ => false

/-! ## The schema unifier (`InputDFSchema.__add_to_schema`, `_unify_schema`) -/

/-- The canonical mapping being accumulated: `in_col -> (out_col, dt)`. -/
def SchemaMap : Type := List (String × (String × ColDT))

instance : DecidableEq SchemaMap := by unfold SchemaMap; infer_instance

/-- `InputDFSchema.__add_to_schema`.  When `out_col` is `None` it defaults to
`in_col`; re-adding an identical `(out_col, dt)` pair overwrites the entry with
an equal value; adding a conflicting pair raises `ValueError`.  (The source also
checks at runtime that `in_col` and `out_col` are strings; in this embedding
that is enforced by the types.) -/
def addToSchema (container : SchemaMap) (in_col : String) (dt : ColDT)
    (out_col : Option String) : Except String SchemaMap :=
  let out := out_col.getD in_col
  match alookup container in_col with
  | some existing =>
      if existing = (out, dt) then .ok (aset container in_col (out, dt))
      else .error ("Column " ++ in_col ++ " is repeated in schema with different value!")
  | none => .ok (aset container in_col (out, dt))

/-- The value side of one entry of a dict-form `DF_SCHEMA`: either
`(out_col, dt)` or a bare `dt` (where the bare `dt` may be the enum member, its
string form, or the `(TIMESTAMP, format)` pair; all collapse into `ColDT`). -/
inductive DictVal
  | outAndDT (out_col : String) (dt : ColDT)
  | dtOnly (dt : ColDT)
deriving DecidableEq, Repr

/-- One `DF_SCHEMA` shorthand entry, mirroring the shapes matched by
`_unify_schema`:

* `oneCol`: `(col, dt)` for a single column name;
* `manyCols`: `([col, ...], dt)` for a list of columns of one shared type;
* `colToDT`: a dict whose values are per-column `DictVal`s (covering both the
  `col -> dt` and `col -> (out, dt)` forms, which the source matches per entry);
* `renameWithDT`: `({in_col: out_col, ...}, dt)` applying one type to a
  renaming map.

Shapes not representable here are exactly those the source rejects through its
catch-all `Schema Unprocessable!` branches (e.g. non-string column names). -/
inductive DFSchemaItem
  | oneCol (col : String) (dt : ColDT)
  | manyCols (cols : List String) (dt : ColDT)
  | colToDT (entries : List (String × DictVal))
  | renameWithDT (entries : List (String × String)) (dt : ColDT)
deriving DecidableEq, Repr

/-- The inner loop of the `list() as cols` case of `_unify_schema`. -/
def addColsToSchema (acc : SchemaMap) (cols : List String) (dt : ColDT) :
    Except String SchemaMap :=
  match cols with
  | [] => .ok acc
  | c :: rest =>
      match addToSchema acc c dt none with
      | .ok acc2 => addColsToSchema acc2 rest dt
      | .error e => .error e

/-- The inner loop of the `dict()` case of `_unify_schema`. -/
def addDictToSchema (acc : SchemaMap) (entries : List (String × DictVal)) :
    Except String SchemaMap :=
  match entries with
  | [] => .ok acc
  | (in_col, .outAndDT out dt) :: rest =>
      match addToSchema acc in_col dt (some out) with
      | .ok acc2 => addDictToSchema acc2 rest
      | .error e => .error e
  | (in_col, .dtOnly dt) :: rest =>
      match addToSchema acc in_col dt none with
      | .ok acc2 => addDictToSchema acc2 rest
      | .error e => .error e

/-- The inner loop of the `dict() as col_names_map` case of `_unify_schema`. -/
def addRenamesToSchema (acc : SchemaMap) (entries : List (String × String))
    (dt : ColDT) : Except String SchemaMap :=
  match entries with
  | [] => .ok acc
  | (in_col, out_col) :: rest =>
      match addToSchema acc in_col dt (some out_col) with
      | .ok acc2 => addRenamesToSchema acc2 rest dt
      | .error e => .error e

/-- Dispatch on one `DF_SCHEMA` entry (the body of the `for schema in
data_schema` loop of `_unify_schema`). -/
def unifyOneSchema (acc : SchemaMap) (s : DFSchemaItem) : Except String SchemaMap :=
  match s with
  | .oneCol col dt => addToSchema acc col dt none
  | .manyCols cols dt => addColsToSchema acc cols dt
  | .colToDT entries => addDictToSchema acc entries
  | .renameWithDT entries dt => addRenamesToSchema acc entries dt

def unifySchemaLoop (acc : SchemaMap) (l : List DFSchemaItem) :
    Except String SchemaMap :=
  match l with
  | [] => .ok acc
  | s :: rest =>
      match unifyOneSchema acc s with
      | .ok acc2 => unifySchemaLoop acc2 rest
      | .error e => .error e

/-- `InputDFSchema._unify_schema`: `None` yields the empty mapping, otherwise
the entries are merged in order into one canonical mapping. -/
def unifySchema (data_schema : Option (List DFSchemaItem)) :
    Except String SchemaMap :=
  match data_schema with
  | none => .ok []
  | some l => unifySchemaLoop [] l

/-! ## `VocabularyConfig` (`src/EventStream/data/config.py`) -/

/-- `VocabularyConfig`.  The dictionaries are embedded as insertion-ordered
association lists (Python dict semantics); all fields default to `None`. -/
structure VocabularyConfig where
  vocab_sizes_by_measurement : Option (List (String × Int)) := none
  vocab_offsets_by_measurement : Option (List (String × Int)) := none
  measurements_idxmap : Option (List (String × List (String × Int))) := none
  measurements_per_generative_mode : Option (List (DataModality × List String)) := none
  event_types_idxmap : Option (List (String × Int)) := none
deriving DecidableEq, Repr

/-- `sum(d.values())` over a Python dict. -/
def sumVals (l : List (String × Int)) : Int := (l.map Prod.snd).sum

/-- `min(d.values())` over a non-empty Python dict (first value, folded). -/
def minValsFrom (x : Int) (rest : List Int) : Int := rest.foldl min x

/-- `VocabularyConfig.total_vocab_size`.  Accessing `.values()` on a `None`
dictionary raises `AttributeError` (the sizes term is evaluated first), and
`min` of an empty collection raises `ValueError`; both are embedded as
`Except.error`.  Otherwise the result is
`sum(sizes.values()) + min(offsets.values()) + (len(offsets) - len(sizes))`. -/
def totalVocabSize (c : VocabularyConfig) : Except String Int :=
  match c.vocab_sizes_by_measurement with
  | none => .error "AttributeError: NoneType object has no attribute values"
  | some sizes =>
      match c.vocab_offsets_by_measurement with
      | none => .error "AttributeError: NoneType object has no attribute values"
      | some offsets =>
          match offsets with
          | [] => .error "ValueError: min arg is an empty sequence"
          | o :: rest =>
              .ok (sumVals sizes + minValsFrom o.2 (rest.map Prod.snd)
                + ((offsets.length : Int) - (sizes.length : Int)))

/-- The count of measurements that have an offset entry but no size entry
(the spec reading of the third term of `total_vocab_size`). -/
def countOffsetsWithoutSize (sizes offsets : List (String × Int)) : Nat :=
  (offsets.filter (fun p => (alookup sizes p.1).isNone)).length

/-! ## `InputDFSchema` (`src/EventStream/data/config.py`)

The dataclass is embedded as two structures: `InputDFSchemaArgs` holds the
constructor arguments as supplied, and `InputDFSchema` holds the state after
`__post_init__` (where a bare `data_schema` has been wrapped into a one-element
list and per-type normalization has happened).  `__post_init__` itself becomes
`mkInputDFSchema : InputDFSchemaArgs → Except String InputDFSchema`. -/

/-- `DF_COL = Union[str, Sequence[str]]`: one column name or a list of them. -/
inductive DFCol
  | one (s : String)
  | many (l : List String)
deriving DecidableEq, Repr

/-- The `event_type` argument: a literal string, a 3-tuple of strings, or a
value of any other shape (`other` stands for every Python value that the match
statements reject through their catch-all branches). -/
inductive EventTypeSpec
  | str (s : String)
  | triple (eq_type st_type end_type : String)
  | other
deriving DecidableEq, Repr

/-- One `must_have` entry: a bare column name (the column must be non-null) or
a `(column, allowed values)` pair. -/
inductive MustHaveEntry
  | col (c : String)
  | colVals (c : String) (vals : List String)
deriving DecidableEq, Repr

/-- The `data_schema` argument: `DF_SCHEMA | list[DF_SCHEMA] | None` (the
`Option` wrapping is kept outside this type). -/
inductive DFSchemaSpec
  | single (item : DFSchemaItem)
  | many (items : List DFSchemaItem)
deriving DecidableEq, Repr

/-- `__post_init__` wraps a non-list `data_schema` into a one-element list. -/
def DFSchemaSpec.toList : DFSchemaSpec → List DFSchemaItem
  | .single item => [item]
  | .many items => items

/-- The constructor arguments of `InputDFSchema` (all default to `None`). -/
structure InputDFSchemaArgs where
  input_df : Option String := none
  type : Option InputDFType := none
  event_type : Option EventTypeSpec := none
  subject_id_col : Option String := none
  ts_col : Option DFCol := none
  start_ts_col : Option DFCol := none
  end_ts_col : Option DFCol := none
  ts_format : Option String := none
  start_ts_format : Option String := none
  end_ts_format : Option String := none
  data_schema : Option DFSchemaSpec := none
  start_data_schema : Option DFSchemaSpec := none
  end_data_schema : Option DFSchemaSpec := none
  must_have : List MustHaveEntry := []
deriving DecidableEq, Repr

/-- The state of an `InputDFSchema` after `__post_init__`: the three schema
fields have been normalized to lists. -/
structure InputDFSchema where
  input_df : Option String
  type : Option InputDFType
  event_type : Option EventTypeSpec
  subject_id_col : Option String
  ts_col : Option DFCol
  start_ts_col : Option DFCol
  end_ts_col : Option DFCol
  ts_format : Option String
  start_ts_format : Option String
  end_ts_format : Option String
  data_schema : Option (List DFSchemaItem)
  start_data_schema : Option (List DFSchemaItem)
  end_data_schema : Option (List DFSchemaItem)
  must_have : List MustHaveEntry
deriving DecidableEq, Repr

/-- `InputDFSchema.is_static`. -/
def InputDFSchema.is_static (s : InputDFSchema) : Bool :=
  s.type = some InputDFType.static

/-- One `filter_on` value: the filter is either `True` (non-null) or the list
of allowed values. -/
inductive FilterSpec
  | nonNull
  | oneOf (vals : List String)
deriving DecidableEq, Repr

/-- The `filter_on` dictionary derived from `must_have` during
`__post_init__`.  (Malformed entries, rejected by the source with
`Malformed filter`, are not representable in the typed `MustHaveEntry`.) -/
def filterOn (l : List MustHaveEntry) : List (String × FilterSpec) :=
  l.foldl
    (fun acc e =>
      match e with
      | .col c => aset acc c .nonNull
      | .colVals c vs => aset acc c (.oneOf vs))
    []

/-- `InputDFSchema.unified_event_schema`. -/
def unifiedEventSchema (s : InputDFSchema) : Except String SchemaMap :=
  unifySchema s.data_schema

/-- `InputDFSchema.unified_start_schema` (range only). -/
def unifiedStartSchema (s : InputDFSchema) : Except String SchemaMap :=
  if s.type ≠ some InputDFType.range then
    .error "Start schema is invalid for this type"
  else
    match s.start_data_schema with
    | none => unifySchema s.data_schema
    | some sds => unifySchema (some sds)

/-- `InputDFSchema.unified_end_schema` (range only). -/
def unifiedEndSchema (s : InputDFSchema) : Except String SchemaMap :=
  if s.type ≠ some InputDFType.range then
    .error "End schema is invalid for this type"
  else
    match s.end_data_schema with
    | none => unifySchema s.data_schema
    | some eds => unifySchema (some eds)

/-- `InputDFSchema.unified_eq_schema` (range only): when no start- or
end-specific schema is present, fall back to the shared schema, otherwise unify
the concatenation of the start- and end-specific schemas. -/
def unifiedEqSchema (s : InputDFSchema) : Except String SchemaMap :=
  if s.type ≠ some InputDFType.range then
    .error "Start=End schema is invalid for this type"
  else
    match s.start_data_schema, s.end_data_schema with
    | none, none => unifySchema s.data_schema
    | sds, eds => unifySchema (some ((sds.getD []) ++ (eds.getD [])))

/-- The type attached to a timestamp column: bare `TIMESTAMP` when no format
was declared, else the `(TIMESTAMP, format)` pair. -/
def tsFmtType (fmt : Option String) : ColDT :=
  match fmt with
  | none => ColDT.plain .timestamp
  | some f => ColDT.tsWithFormat f

/-- The inner loop of `columns_to_load` for `EVENT`/`STATIC`: any repeated
source column raises `Duplicate column`. -/
def addEventCols (acc : List (String × ColDT)) (m : SchemaMap) :
    Except String (List (String × ColDT)) :=
  match m with
  | [] => .ok acc
  | (in_col, (_, dt)) :: rest =>
      match alookup acc in_col with
      | some _ => .error ("Duplicate column " ++ in_col ++ "!")
      | none => addEventCols (aset acc in_col dt) rest

/-- The inner loop of `columns_to_load` for `RANGE`: a column repeated across
the eq/start/end variants must agree on its type. -/
def addRangeCols (acc : List (String × ColDT)) (m : SchemaMap) :
    Except String (List (String × ColDT)) :=
  match m with
  | [] => .ok acc
  | (in_col, (_, dt)) :: rest =>
      match alookup acc in_col with
      | some dt2 =>
          if dt ≠ dt2 then
            .error ("Duplicate column " ++ in_col ++ " with differing dts!")
          else addRangeCols acc rest
      | none => addRangeCols (aset acc in_col dt) rest

/-- Extend the load list with the entries of one timestamp column parameter
(the `start_ts_col` / `end_ts_col` / `ts_col` loop at the end of
`columns_to_load`). -/
def appendTsCols (acc : List (String × ColDT)) (val : Option DFCol)
    (fmt : Option String) : List (String × ColDT) :=
  match val with
  | none => acc
  | some (.one c) => acc ++ [(c, tsFmtType fmt)]
  | some (.many cs) => acc ++ cs.map (fun c => (c, tsFmtType fmt))

/-- `InputDFSchema.columns_to_load`: data-schema columns first (deduplicated
per the source type), then the timestamp columns in the order
`start_ts_col`, `end_ts_col`, `ts_col`. -/
def columnsToLoad (s : InputDFSchema) : Except String (List (String × ColDT)) :=
  let withTs := fun (cols : List (String × ColDT)) =>
    appendTsCols
      (appendTsCols (appendTsCols cols s.start_ts_col s.start_ts_format)
        s.end_ts_col s.end_ts_format)
      s.ts_col s.ts_format
  match s.type with
  | some .event | some .static =>
      match unifiedEventSchema s with
      | .error e => .error e
      | .ok us =>
          match addEventCols [] us with
          | .error e => .error e
          | .ok cols => .ok (withTs cols)
  | some .range =>
      match unifiedEqSchema s with
      | .error e => .error e
      | .ok eqS =>
          match unifiedStartSchema s with
          | .error e => .error e
          | .ok stS =>
              match unifiedEndSchema s with
              | .error e => .error e
              | .ok enS =>
                  match addRangeCols [] eqS with
                  | .error e => .error e
                  | .ok c1 =>
                      match addRangeCols c1 stS with
                      | .error e => .error e
                      | .ok c2 =>
                          match addRangeCols c2 enS with
                          | .error e => .error e
                          | .ok c3 => .ok (withTs c3)
  | none => .error "Unrecognized type None!"

/-- The `InputDFType.STATIC` branch of `__post_init__`. -/
def validateStatic (s : InputDFSchema) : Except String InputDFSchema :=
  if s.subject_id_col.isNone then
    .error "Must set subject_id_col for static source!"
  else if s.event_type.isSome then
    .error "Event_type cannot be set if type == static!"
  else if s.ts_col.isSome then
    .error "Set invalid param ts_col for static source!"
  else if s.start_ts_col.isSome then
    .error "Set invalid param start_ts_col for static source!"
  else if s.end_ts_col.isSome then
    .error "Set invalid param end_ts_col for static source!"
  else .ok s

/-- The `InputDFType.EVENT` branch of `__post_init__`. -/
def validateEvent (s : InputDFSchema) : Except String InputDFSchema :=
  if s.ts_col.isNone then
    .error "Missing mandatory event parameter ts_col!"
  else
    match s.event_type with
    | none => .error "Missing mandatory range parameter event_type!"
    | some (.str _) =>
        if s.subject_id_col.isSome then
          .error "subject_id_col should be None for non-static types!"
        else if s.start_ts_col.isSome then
          .error "start_ts_col should be None for event schema"
        else if s.end_ts_col.isSome then
          .error "end_ts_col should be None for event schema"
        else if s.start_ts_format.isSome then
          .error "start_ts_format should be None for event schema"
        else if s.end_ts_format.isSome then
          .error "end_ts_format should be None for event schema"
        else if s.start_data_schema.isSome then
          .error "start_data_schema should be None for event schema"
        else if s.end_data_schema.isSome then
          .error "end_data_schema should be None for event schema"
        else .ok s
    | some _ => .error "event_type must be a string for events."

/-- The timestamp-format rules of the `InputDFType.RANGE` branch: either both
start and end formats are set (and the shared format unset), or neither is set
and the shared format is copied to both and cleared. -/
def validateRangeTs (s : InputDFSchema) : Except String InputDFSchema :=
  if s.start_ts_col.isNone then
    .error "Missing mandatory range parameter start_ts_col!"
  else if s.end_ts_col.isNone then
    .error "Missing mandatory range parameter end_ts_col!"
  else if s.ts_col.isSome then
    .error "ts_col should be None for range schemas!"
  else if s.subject_id_col.isSome then
    .error "subject_id_col should be None for non-static types!"
  else
    match s.start_ts_format with
    | some _ =>
        if s.end_ts_format.isNone then
          .error "If start_ts_format is specified, end_ts_format must also be specified!"
        else if s.ts_format.isSome then
          .error "If start_ts_format is specified, ts_format must be None!"
        else .ok s
    | none =>
        if s.end_ts_format.isSome then
          .error "If end_ts_format is specified, start_ts_format must also be specified!"
        else
          .ok { s with start_ts_format := s.ts_format, end_ts_format := s.ts_format,
                       ts_format := none }

/-- The shared-`data_schema` rule of the `InputDFType.RANGE` branch: a shared
schema is forbidden next to start/end-specific ones, and otherwise copied into
both. -/
def validateRangeData (s : InputDFSchema) : Except String InputDFSchema :=
  match s.data_schema with
  | some ds =>
      if s.start_data_schema.isSome then
        .error "start_data_schema cannot be simultaneously set with data_schema!"
      else if s.end_data_schema.isSome then
        .error "end_data_schema cannot be simultaneously set with data_schema!"
      else validateRangeTs { s with start_data_schema := some ds, end_data_schema := some ds }
  | none => validateRangeTs s

/-- The `InputDFType.RANGE` branch of `__post_init__`: the `event_type` match
(auto-expansion of a literal string into the `(X, X_START, X_END)` 3-tuple),
then the data-schema and timestamp rules. -/
def validateRange (s : InputDFSchema) : Except String InputDFSchema :=
  match s.event_type with
  | none => .error "Missing mandatory range parameter event_type!"
  | some .other =>
      .error "event_type must be a string or a 3-element tuple (eq_type, st_type, end_type) for ranges."
  | some (.triple a b c) => validateRangeData { s with event_type := some (.triple a b c) }
  | some (.str x) =>
      validateRangeData
        { s with event_type := some (.triple x (x ++ "_START") (x ++ "_END")) }

/-- The per-type `match self.type` dispatch of `__post_init__` (a `None` type
has already been rejected; the Python match has no catch-all, so any other
value would fall through unchanged). -/
def typeDispatch (s : InputDFSchema) : Except String InputDFSchema :=
  match s.type with
  | some .static => validateStatic s
  | some .event => validateEvent s
  | some .range => validateRange s
  | none => .ok s

/-- The record state at the start of `__post_init__`, after the schema
arguments have been wrapped into lists. -/
def initSchema (a : InputDFSchemaArgs) : InputDFSchema :=
  { input_df := a.input_df, type := a.type, event_type := a.event_type,
    subject_id_col := a.subject_id_col, ts_col := a.ts_col,
    start_ts_col := a.start_ts_col, end_ts_col := a.end_ts_col,
    ts_format := a.ts_format, start_ts_format := a.start_ts_format,
    end_ts_format := a.end_ts_format,
    data_schema := a.data_schema.map DFSchemaSpec.toList,
    start_data_schema := a.start_data_schema.map DFSchemaSpec.toList,
    end_data_schema := a.end_data_schema.map DFSchemaSpec.toList,
    must_have := a.must_have }

/-- `InputDFSchema.__post_init__`: mandatory-parameter checks, wrapping of the
schema arguments into lists, per-type validation/normalization, and the final
`self.columns_to_load` evaluation that forces load-plan validity. -/
def mkInputDFSchema (a : InputDFSchemaArgs) : Except String InputDFSchema :=
  if a.input_df.isNone then .error "Missing mandatory parameter input_df!"
  else if a.type.isNone then .error "Missing mandatory parameter type!"
  else
    match typeDispatch (initSchema a) with
    | .error e => .error e
    | .ok s1 =>
        match columnsToLoad s1 with
        | .error e => .error e
        | .ok _ => .ok s1

/-- A concrete event-type source whose `ts_col` name `a` also appears as a
source column of `data_schema`. -/
def exampleEventArgs : InputDFSchemaArgs :=
  { input_df := some "events_df", type := some InputDFType.event,
    event_type := some (.str "ev"), ts_col := some (.one "a"),
    data_schema := some (.single (.oneCol "a" (.plain .categorical))) }

/-- The schema `exampleEventArgs` constructs. -/
def exampleEventSchema : InputDFSchema :=
  { input_df := some "events_df", type := some InputDFType.event,
    event_type := some (.str "ev"), subject_id_col := none,
    ts_col := some (.one "a"), start_ts_col := none, end_ts_col := none,
    ts_format := none, start_ts_format := none, end_ts_format := none,
    data_schema := some [.oneCol "a" (.plain .categorical)],
    start_data_schema := none, end_data_schema := none, must_have := [] }

/-! ## `DatasetSchema` (`src/EventStream/data/config.py`)

`DatasetSchema.__post_init__` additionally *prints* non-fatal warnings; the
embedding returns the list of warning messages alongside the constructed
value. -/

/-- A schema entry as passed to `DatasetSchema`: either an already-constructed
`InputDFSchema` or a plain dictionary of constructor arguments. -/
inductive SchemaOrDict
  | typed (s : InputDFSchema)
  | raw (a : InputDFSchemaArgs)
deriving DecidableEq, Repr

structure DatasetSchema where
  static : InputDFSchema
  dynamic : List InputDFSchema
deriving DecidableEq, Repr

/-- Python `str()` of an optional string (used in the warning message). -/
def optStr : Option String → String
  | none => "None"
  | some s => s

/-- The `WARNING: ... subject ID col name ... differs from static ...` message
printed by `DatasetSchema.__post_init__`. -/
def subjectIdMismatchWarning (v : InputDFSchema) (staticCol : Option String) :
    String :=
  "WARNING: " ++ optStr v.input_df ++ " subject ID col name ("
    ++ optStr v.subject_id_col ++ ") differs from static ("
    ++ optStr staticCol ++ ")."

/-- `if type(v) is dict: v = InputDFSchema(**v)`. -/
def resolveSchema : SchemaOrDict → Except String InputDFSchema
  | .typed s => .ok s
  | .raw a => mkInputDFSchema a

/-- The `for v in self.dynamic` loop of `DatasetSchema.__post_init__`: a
dynamic source with no subject-id column inherits the static one; a different
explicit subject-id column only produces a warning; a source whose type is
static is rejected. -/
def processDynamic (staticCol : Option String) (l : List SchemaOrDict) :
    Except String (List InputDFSchema × List String) :=
  match l with
  | [] => .ok ([], [])
  | v :: rest =>
      match resolveSchema v with
      | .error e => .error e
      | .ok s0 =>
          let s1 := if s0.subject_id_col.isNone
                    then { s0 with subject_id_col := staticCol } else s0
          let ws : List String :=
            if s1.subject_id_col ≠ staticCol
            then [subjectIdMismatchWarning s1 staticCol] else []
          if s1.is_static then .error "Must pass dynamic schemas in self.dynamic!"
          else
            match processDynamic staticCol rest with
            | .error e => .error e
            | .ok (ss, ws2) => .ok (s1 :: ss, ws ++ ws2)

/-- The static-schema handling at the top of `DatasetSchema.__post_init__`
(note: the `is_static` check is only applied when the static schema arrives as
a plain dictionary). -/
def mkStatic : Option SchemaOrDict → Except String InputDFSchema
  | none => .error "Must specify a static schema!"
  | some (.typed s) => .ok s
  | some (.raw a) =>
      match mkInputDFSchema a with
      | .error e => .error e
      | .ok s =>
          if s.is_static then .ok s
          else .error "Must pass a static schema config for static."

/-- `DatasetSchema.__post_init__`. -/
def mkDatasetSchema (static : Option SchemaOrDict) (dynamic : List SchemaOrDict) :
    Except String (DatasetSchema × List String) :=
  match mkStatic static with
  | .error e => .error e
  | .ok st =>
      if st.subject_id_col.isNone then
        .error "Must specify a subject_id_col source for the static dataframe!"
      else
        match processDynamic st.subject_id_col dynamic with
        | .error e => .error e
        | .ok (dyn, ws) => .ok ({ static := st, dynamic := dyn }, ws)

/-- One step of the `dynamic_by_df` grouping (appends `v` to the group of its
`input_df`). -/
def addToGroup (acc : List (Option String × List InputDFSchema))
    (k : Option String) (v : InputDFSchema) :
    List (Option String × List InputDFSchema) :=
  match acc with
  | [] => [(k, [v])]
  | (k2, vs) :: rest =>
      if k2 = k then (k2, vs ++ [v]) :: rest else (k2, vs) :: addToGroup rest k v

/-- The derived `dynamic_by_df` grouping of dynamic schemas by their physical
source identifier. -/
def dynamicByDf (ds : DatasetSchema) : List (Option String × List InputDFSchema) :=
  ds.dynamic.foldl (fun acc v => addToGroup acc v.input_df v) []

/-- A concrete static source schema (used by witnesses). -/
def exampleStaticSchema : InputDFSchema :=
  { input_df := some "subjects_df", type := some InputDFType.static,
    event_type := none, subject_id_col := some "sid",
    ts_col := none, start_ts_col := none, end_ts_col := none,
    ts_format := none, start_ts_format := none, end_ts_format := none,
    data_schema := some [.oneCol "eye_color" (.plain .categorical)],
    start_data_schema := none, end_data_schema := none, must_have := [] }

/-- A concrete dynamic source schema with no subject-id column. -/
def exampleDynSchema : InputDFSchema :=
  { input_df := some "events_df", type := some InputDFType.event,
    event_type := some (.str "ev"), subject_id_col := none,
    ts_col := some (.one "ts"), start_ts_col := none, end_ts_col := none,
    ts_format := none, start_ts_format := none, end_ts_format := none,
    data_schema := some [.oneCol "hr" (.plain .float)],
    start_data_schema := none, end_data_schema := none, must_have := [] }

/-! ## `MeasurementConfig` (`src/EventStream/data/config.py`)

The per-key numeric metadata (`pandas.DataFrame` / `pandas.Series`) is embedded
at the granularity of its plain-dictionary representation: a `DataFrame` as the
content of `to_dict(orient="tight")`, a `Series` as its ordered key/value map.
A cache path (`str` or `pathlib.Path`) is a bare string. -/

/-- A Python scalar value as it appears in a metadata cell. -/
inductive PyVal
  | str (s : String)
  | int (n : Int)
  | boolean (b : Bool)
  | none
  | pyList (l : List PyVal)

mutual

def PyVal.decEq : (a b : PyVal) → Decidable (a = b)
  | .str x, .str y =>
      if h : x = y then isTrue (by rw [h])
      else isFalse (fun hh => h (PyVal.str.inj hh))
  | .int x, .int y =>
      if h : x = y then isTrue (by rw [h])
      else isFalse (fun hh => h (PyVal.int.inj hh))
  | .boolean x, .boolean y =>
      if h : x = y then isTrue (by rw [h])
      else isFalse (fun hh => h (PyVal.boolean.inj hh))
  | .none, .none => isTrue rfl
  | .pyList xs, .pyList ys =>
      match PyVal.decEqList xs ys with
      | isTrue h => isTrue (by rw [h])
      | isFalse h => isFalse (fun hh => h (PyVal.pyList.inj hh))
  | .str _, .int _ => isFalse (fun h => nomatch h)
  | .str _, .boolean _ => isFalse (fun h => nomatch h)
  | .str _, .none => isFalse (fun h => nomatch h)
  | .str _, .pyList _ => isFalse (fun h => nomatch h)
  | .int _, .str _ => isFalse (fun h => nomatch h)
  | .int _, .boolean _ => isFalse (fun h => nomatch h)
  | .int _, .none => isFalse (fun h => nomatch h)
  | .int _, .pyList _ => isFalse (fun h => nomatch h)
  | .boolean _, .str _ => isFalse (fun h => nomatch h)
  | .boolean _, .int _ => isFalse (fun h => nomatch h)
  | .boolean _, .none => isFalse (fun h => nomatch h)
  | .boolean _, .pyList _ => isFalse (fun h => nomatch h)
  | .none, .str _ => isFalse (fun h => nomatch h)
  | .none, .int _ => isFalse (fun h => nomatch h)
  | .none, .boolean _ => isFalse (fun h => nomatch h)
  | .none, .pyList _ => isFalse (fun h => nomatch h)
  | .pyList _, .str _ => isFalse (fun h => nomatch h)
  | .pyList _, .int _ => isFalse (fun h => nomatch h)
  | .pyList _, .boolean _ => isFalse (fun h => nomatch h)
  | .pyList _, .none => isFalse (fun h => nomatch h)

def PyVal.decEqList : (as bs : List PyVal) → Decidable (as = bs)
  | [], [] => isTrue rfl
  | [], _ :: _ => isFalse (fun h => nomatch h)
  | _ :: _, [] => isFalse (fun h => nomatch h)
  | a :: as, b :: bs =>
      match PyVal.decEq a b, PyVal.decEqList as bs with
      | isTrue h1, isTrue h2 => isTrue (by rw [h1, h2])
      | isFalse h1, _ => isFalse (fun h => by injection h with ha hb; exact h1 ha)
      | _, isFalse h2 => isFalse (fun h => by injection h with ha hb; exact h2 hb)

end

instance : DecidableEq PyVal := PyVal.decEq

/-- A `pandas.Series` at plain-data granularity: its ordered index/value map. -/
def MMSeries : Type := List (String × PyVal)

instance : DecidableEq MMSeries := by unfold MMSeries; infer_instance

/-- A `pandas.DataFrame` at plain-data granularity: the components of its
`to_dict(orient="tight")` representation. -/
structure MMTable where
  index : List String
  columns : List String
  data : List (List PyVal)
  index_names : List (Option String)
  column_names : List (Option String)
deriving DecidableEq

/-- The `_measurement_metadata` slot: an in-memory table or series, or a cache
path sentinel (`str | Path`, both embedded as the path string). -/
inductive MeasMetadata
  | table (t : MMTable)
  | series (s : MMSeries)
  | storedPath (p : String)
deriving DecidableEq

/-- Modelled from the spec: the concrete `TimeDependentFunctor` subclasses
(`AgeFunctor`, `TimeOfDayFunctor`) live in
`src/EventStream/data/time_dependent_functor.py`, which is not among the
provided sources.  The spec describes a functor as a pure function object
carrying its own parameters; `AgeFunctor` is parameterized by its
date-of-birth column, `TimeOfDayFunctor` takes no parameters. -/
inductive TDFunctor
  | age (dob_col : String)
  | timeOfDay
deriving DecidableEq, Repr

/-- Modelled from the spec: the functor's declared output modality
(`functor.OUTPUT_MODALITY`): age is a fully-observed univariate regression
measure, time-of-day a categorical one. -/
def TDFunctor.outputModality : TDFunctor → DataModality
  | .age _ => .univariate_regression
  | .timeOfDay => .single_label_classification

/-- Modelled from the spec: a functor serializes as a tagged structure
`{class: <tag>, ...params}`; the tag strings are the keys of the
`MeasurementConfig.FUNCTORS` registry in the source. -/
def TDFunctor.toDict : TDFunctor → String × List String
  | .age c => ("AgeFunctor", [c])
  | .timeOfDay => ("TimeOfDayFunctor", [])

/-- The functor deserialization dispatch
(`cls.FUNCTORS[as_dict["functor"]["class"]].from_dict(...)`): an unknown class
tag raises `KeyError`; a known tag rebuilds the functor from its parameters
(modelled from the spec for the parameter part). -/
def functorFromDict (d : String × List String) : Except String TDFunctor :=
  match d.1, d.2 with
  | "AgeFunctor", [c] => .ok (.age c)
  | "TimeOfDayFunctor", [] => .ok .timeOfDay
  | _, _ => .error "KeyError: unknown functor class tag"

/-- Modelled from the spec: `Vocabulary`
(`src/EventStream/data/vocabulary.py`, not among the provided sources) is a
dataclass holding the vocabulary elements (beginning with `UNK`) and their
observation frequencies; `asdict`/`Vocabulary(**d)` round-trip it losslessly,
so the embedding keeps the fields themselves (frequencies as rationals standing
for the Python floats, which are only copied, never computed with). -/
structure Vocabulary where
  vocabulary : List String
  obs_frequencies : List Rat
deriving DecidableEq, Repr

/-- `MeasurementConfig` (all fields default to `None`). -/
structure MeasurementConfig where
  name : Option String := none
  temporality : Option TemporalityType := none
  modality : Option DataModality := none
  observation_frequency : Option Rat := none
  functor : Option TDFunctor := none
  vocabulary : Option Vocabulary := none
  values_column : Option String := none
  _measurement_metadata : Option MeasMetadata := none
deriving DecidableEq

/-- `MeasurementConfig.is_dropped`. -/
def MeasurementConfig.is_dropped (mc : MeasurementConfig) : Bool :=
  mc.modality = some DataModality.dropped

/-- `MeasurementConfig.is_numeric`. -/
def MeasurementConfig.is_numeric (mc : MeasurementConfig) : Bool :=
  mc.modality = some DataModality.multivariate_regression
    || mc.modality = some DataModality.univariate_regression

/-- The error message of the dynamic + single-label-classification branch of
`MeasurementConfig._validate`. -/
def errDynamicSingleLabel : String :=
  "single_label_classification on dynamic measurements is not currently supported, as event aggregation can turn single-label tasks into multi-label tasks in a manner that is not currently automatically detected or compensated for."

/-- The `match self.temporality` part of `MeasurementConfig._validate`
(including the defaulting of a `None` modality from the functor's output
modality on functionally-time-dependent measures). -/
def tempCheck (mc : MeasurementConfig) : Except String MeasurementConfig :=
  match mc.temporality with
  | some .static =>
      if mc.functor.isSome then
        .error "functor should be None for static measurements!"
      else if mc.is_numeric then
        .error "NotImplementedError: Numeric data modalities not yet supported on static measures."
      else .ok mc
  | some .dynamic =>
      if mc.functor.isSome then
        .error "functor should be None for dynamic measurements!"
      else if mc.modality = some DataModality.single_label_classification then
        .error errDynamicSingleLabel
      else .ok mc
  | some .functional_time_dependent =>
      match mc.functor with
      | none => .error "functor must be set for functional_time_dependent measurements!"
      | some f =>
          match mc.modality with
          | none => .ok { mc with modality := some f.outputModality }
          | some m =>
              if m = DataModality.dropped ∨ m = f.outputModality then .ok mc
              else .error "self.modality must either be DataModality.DROPPED or the functor output modality for functional_time_dependent measures"
  | none => .error "self.temporality = None Invalid! Must be in static, dynamic, functional_time_dependent"

/-- The `match self.modality` part of `MeasurementConfig._validate`, which
accumulates the violated constraints into one list.  For the regression
modalities the source inspects the `measurement_metadata` *property*; when the
slot holds a cache path the property loads the file and itself guarantees
(raising otherwise) that the loaded value is a `DataFrame` for multivariate and
a `Series` for univariate measurements, so a stored path passes the
`isinstance` checks (file I/O is outside the embedding and assumed to
succeed).  A `None` modality hits the match catch-all and raises
immediately. -/
def modalityErrs (mc : MeasurementConfig) : Except String (List String) :=
  match mc.modality with
  | some DataModality.multivariate_regression =>
      .ok ((if mc.values_column.isNone then
              ["values_column must be set on a multivariate_regression MeasurementConfig"]
            else [])
        ++ (match mc._measurement_metadata with
            | some (.series _) =>
                ["If set, measurement_metadata must be a DataFrame on a multivariate_regression MeasurementConfig."]
            | _ => []))
  | some DataModality.univariate_regression =>
      .ok ((if mc.values_column.isSome then
              ["values_column must be None on a univariate_regression MeasurementConfig."]
            else [])
        ++ (match mc._measurement_metadata with
            | some (.table _) =>
                ["If set, measurement_metadata must be a Series on a univariate_regression MeasurementConfig."]
            | _ => []))
  | some DataModality.single_label_classification
  | some DataModality.multi_label_classification =>
      .ok ((if mc.values_column.isSome then
              ["values_column must be None on a classification MeasurementConfig."]
            else [])
        ++ (if mc._measurement_metadata.isSome then
              ["measurement_metadata must be None on a classification MeasurementConfig."]
            else []))
  | some DataModality.dropped =>
      .ok ((if mc.vocabulary.isSome then
              ["vocabulary must be None on a dropped MeasurementConfig."]
            else [])
        ++ (if mc._measurement_metadata.isSome then
              ["measurement_metadata must be None on a dropped MeasurementConfig."]
            else []))
  | none => .error "self.modality = None Invalid!"

/-- `MeasurementConfig._validate`: the temporality checks (possibly defaulting
the modality), then the accumulated modality-specific constraints, joined into
one combined error when non-empty. -/
def MeasurementConfig._validate (mc : MeasurementConfig) :
    Except String MeasurementConfig :=
  match tempCheck mc with
  | .error e => .error e
  | .ok mc2 =>
      match modalityErrs mc2 with
      | .error e => .error e
      | .ok [] => .ok mc2
      | .ok errs => .error (String.intercalate "\x0a" errs)

/-- `MeasurementConfig.__post_init__` (it only calls `self._validate()`). -/
def mkMeasurementConfig (mc : MeasurementConfig) : Except String MeasurementConfig :=
  mc._validate

/-- `MeasurementConfig.drop`. -/
def MeasurementConfig.drop (mc : MeasurementConfig) : MeasurementConfig :=
  { mc with modality := some DataModality.dropped,
            _measurement_metadata := none, vocabulary := none }

/-- The serialized `_measurement_metadata` inside the plain dictionary
produced by `MeasurementConfig.to_dict`. -/
inductive MMSerialized
  | tightDict (t : MMTable)
  | seriesDict (s : MMSeries)
  | pathStr (p : String)
deriving DecidableEq

/-- The plain-dictionary form of a `MeasurementConfig`. -/
structure MCDict where
  name : Option String
  temporality : Option TemporalityType
  modality : Option DataModality
  observation_frequency : Option Rat
  functor : Option (String × List String)
  vocabulary : Option Vocabulary
  values_column : Option String
  _measurement_metadata : Option MMSerialized
deriving DecidableEq

/-- `MeasurementConfig.to_dict`: `dataclasses.asdict`, with the metadata slot
replaced by its plain form and an attached functor serialized through its own
`to_dict` (the source replaces the functor entry only for
functionally-time-dependent measures, the one temporality a functor can
validly appear under). -/
def MeasurementConfig.toDict (mc : MeasurementConfig) : MCDict :=
  { name := mc.name, temporality := mc.temporality, modality := mc.modality,
    observation_frequency := mc.observation_frequency,
    functor := mc.functor.map TDFunctor.toDict,
    vocabulary := mc.vocabulary, values_column := mc.values_column,
    _measurement_metadata := mc._measurement_metadata.map
      (fun m =>
        match m with
        | .table t => MMSerialized.tightDict t
        | .series s => MMSerialized.seriesDict s
        | .storedPath p => MMSerialized.pathStr p) }

/-- `str()` of an optional string at `PyVal` granularity. -/
def optPyStr : Option String → PyVal
  | none => PyVal.none
  | some s => PyVal.str s

/-- `pd.Series(tight_dict)`: feeding a tight DataFrame dictionary into the
Series constructor (reachable only for a univariate measurement deserialized
from a table-shaped dictionary) produces a series whose index are the tight
keys. -/
def tightAsRawSeries (t : MMTable) : MMSeries :=
  [("index", PyVal.pyList (t.index.map PyVal.str)),
   ("columns", PyVal.pyList (t.columns.map PyVal.str)),
   ("data", PyVal.pyList (t.data.map PyVal.pyList)),
   ("index_names", PyVal.pyList (t.index_names.map optPyStr)),
   ("column_names", PyVal.pyList (t.column_names.map optPyStr))]

/-- The `match as_dict["_measurement_metadata"], as_dict["modality"]` step of
`MeasurementConfig.from_dict`: strings and `None` pass through; a dictionary is
parsed as a tight DataFrame for multivariate regression (raising when the
dictionary is not tight-shaped) and as a Series for univariate regression; any
other dictionary/modality combination raises `incompatible`. -/
def mmFromDict (mm : Option MMSerialized) (modality : Option DataModality) :
    Except String (Option MeasMetadata) :=
  match mm, modality with
  | some (.pathStr p), _ => .ok (some (.storedPath p))
  | none, _ => .ok none
  | some (.tightDict t), some DataModality.multivariate_regression =>
      .ok (some (.table t))
  | some (.seriesDict _), some DataModality.multivariate_regression =>
      .error "KeyError: DataFrame.from_dict with orient tight requires tight keys"
  | some (.seriesDict s), some DataModality.univariate_regression =>
      .ok (some (.series s))
  | some (.tightDict t), some DataModality.univariate_regression =>
      .ok (some (.series (tightAsRawSeries t)))
  | some _, _ => .error "measurement_metadata and modality incompatible!"

/-- The functor step of `MeasurementConfig.from_dict`: a non-`None` functor
dictionary requires functionally-time-dependent temporality and is rebuilt
through the class registry. -/
def funFromDict (f : Option (String × List String))
    (temporality : Option TemporalityType) : Except String (Option TDFunctor) :=
  match f with
  | none => .ok none
  | some fd =>
      if temporality ≠ some TemporalityType.functional_time_dependent then
        .error "Only TemporalityType.FUNCTIONAL_TIME_DEPENDENT measures can have functors."
      else
        match functorFromDict fd with
        | .error e => .error e
        | .ok fn => .ok (some fn)

/-- `MeasurementConfig.from_dict` followed by the constructor (which re-runs
`_validate`). -/
def measurementConfigFromDict (d : MCDict) : Except String MeasurementConfig :=
  match mmFromDict d._measurement_metadata d.modality with
  | .error e => .error e
  | .ok mm =>
      match funFromDict d.functor d.temporality with
      | .error e => .error e
      | .ok f =>
          mkMeasurementConfig
            { name := d.name, temporality := d.temporality, modality := d.modality,
              observation_frequency := d.observation_frequency, functor := f,
              vocabulary := d.vocabulary, values_column := d.values_column,
              _measurement_metadata := mm }

/-! ## `DatasetConfig` (`src/EventStream/data/config.py`) -/

/-- `COUNT_OR_PROPORTION`: an integer count or a float proportion (floats are
embedded as rationals, which validation only compares, never computes with).
The `prop` form also stands in for any non-`int` value fed to the
proportion-only threshold, whose validation rejects integers through its
catch-all `TypeError`. -/
inductive CountOrProp
  | count (n : Int)
  | prop (q : Rat)
deriving DecidableEq, Repr

/-- `DatasetConfig` (defaults as in the source; `save_dir` paths are embedded
as strings, `Path(str)` being the identity at this granularity). -/
structure DatasetConfig where
  measurement_configs : List (String × MeasurementConfig) := []
  min_events_per_subject : Option Int := none
  agg_by_time_scale : Option String := some "1h"
  min_valid_column_observations : Option CountOrProp := none
  min_valid_vocab_element_observations : Option CountOrProp := none
  min_true_float_frequency : Option CountOrProp := none
  min_unique_numerical_observations : Option CountOrProp := none
  outlier_detector_config : Option (List (String × PyVal)) := none
  normalizer_config : Option (List (String × PyVal)) := none
  save_dir : Option String := none
deriving DecidableEq

/-- The measurement-name loop of `DatasetConfig.__post_init__`: an unset name
is filled from the dict key, a different name is an error. -/
def fillNames (l : List (String × MeasurementConfig)) :
    Except String (List (String × MeasurementConfig)) :=
  match l with
  | [] => .ok []
  | (k, cfg) :: rest =>
      match cfg.name with
      | none =>
          match fillNames rest with
          | .error e => .error e
          | .ok rest2 => .ok ((k, { cfg with name := some k }) :: rest2)
      | some n =>
          if n ≠ k then
            .error ("Measurement config " ++ k ++ " has name " ++ n
              ++ " which differs from dict key!")
          else
            match fillNames rest with
            | .error e => .error e
            | .ok rest2 => .ok ((k, cfg) :: rest2)

/-- The count-or-proportion threshold validation: `None` passes, a float must
lie strictly in `(0, 1)`, an integer must be `> 1`. -/
def checkCountOrProp (varName : String) (v : Option CountOrProp) :
    Except String Unit :=
  match v with
  | none => .ok ()
  | some (.prop q) =>
      if 0 < q ∧ q < 1 then .ok ()
      else .error (varName ++ " must be in (0, 1) if float!")
  | some (.count n) =>
      if n > 1 then .ok ()
      else .error (varName ++ " must be > 1 if integral!")

/-- The proportion-only threshold validation (`min_true_float_frequency`):
`None` passes, a float must lie strictly in `(0, 1)`, anything else (including
an integer) raises `TypeError`. -/
def checkProportion (varName : String) (v : Option CountOrProp) :
    Except String Unit :=
  match v with
  | none => .ok ()
  | some (.prop q) =>
      if 0 < q ∧ q < 1 then .ok ()
      else .error (varName ++ " must be in (0, 1) if float!")
  | some (.count _) =>
      .error (varName ++ " must be a fraction (float between 0 and 1)!")

/-- The outlier/normalizer strategy-descriptor validation: if present, the
value must be a dictionary containing the key `cls`. -/
def checkStrategyConfig (varName : String)
    (v : Option (List (String × PyVal))) : Except String Unit :=
  match v with
  | none => .ok ()
  | some d =>
      if (alookup d "cls").isSome then .ok ()
      else .error (varName ++ " must be either None or a dictionary with cls as a key!")

/-- The re-validation loop of `DatasetConfig.__post_init__`: each measurement
config is re-validated in place (which may default an FTD modality), and any
failure is wrapped with the offending key. -/
def revalidateAll (l : List (String × MeasurementConfig)) :
    Except String (List (String × MeasurementConfig)) :=
  match l with
  | [] => .ok []
  | (k, cfg) :: rest =>
      match cfg._validate with
      | .error _ => .error ("Measurement config " ++ k ++ " invalid!")
      | .ok cfg2 =>
          match revalidateAll rest with
          | .error e => .error e
          | .ok rest2 => .ok ((k, cfg2) :: rest2)

/-- `DatasetConfig.__post_init__`. -/
def mkDatasetConfig (dc : DatasetConfig) : Except String DatasetConfig :=
  match fillNames dc.measurement_configs with
  | .error e => .error e
  | .ok mcs1 =>
      match checkCountOrProp "min_valid_column_observations"
          dc.min_valid_column_observations with
      | .error e => .error e
      | .ok _ =>
      match checkCountOrProp "min_valid_vocab_element_observations"
          dc.min_valid_vocab_element_observations with
      | .error e => .error e
      | .ok _ =>
      match checkCountOrProp "min_unique_numerical_observations"
          dc.min_unique_numerical_observations with
      | .error e => .error e
      | .ok _ =>
      match checkProportion "min_true_float_frequency" dc.min_true_float_frequency with
      | .error e => .error e
      | .ok _ =>
      match checkStrategyConfig "outlier_detector_config" dc.outlier_detector_config with
      | .error e => .error e
      | .ok _ =>
      match checkStrategyConfig "normalizer_config" dc.normalizer_config with
      | .error e => .error e
      | .ok _ =>
          match revalidateAll mcs1 with
          | .error e => .error e
          | .ok mcs2 => .ok { dc with measurement_configs := mcs2 }

/-- The plain-dictionary form of a `DatasetConfig`. -/
structure DCDict where
  measurement_configs : List (String × MCDict)
  min_events_per_subject : Option Int
  agg_by_time_scale : Option String
  min_valid_column_observations : Option CountOrProp
  min_valid_vocab_element_observations : Option CountOrProp
  min_true_float_frequency : Option CountOrProp
  min_unique_numerical_observations : Option CountOrProp
  outlier_detector_config : Option (List (String × PyVal))
  normalizer_config : Option (List (String × PyVal))
  save_dir : Option String
deriving DecidableEq

/-- `DatasetConfig.to_dict`: `dataclasses.asdict`, with `save_dir` stringified
and the measurement configs serialized through their own `to_dict`. -/
def DatasetConfig.toDict (dc : DatasetConfig) : DCDict :=
  { measurement_configs := dc.measurement_configs.map
      (fun p => (p.1, p.2.toDict)),
    min_events_per_subject := dc.min_events_per_subject,
    agg_by_time_scale := dc.agg_by_time_scale,
    min_valid_column_observations := dc.min_valid_column_observations,
    min_valid_vocab_element_observations := dc.min_valid_vocab_element_observations,
    min_true_float_frequency := dc.min_true_float_frequency,
    min_unique_numerical_observations := dc.min_unique_numerical_observations,
    outlier_detector_config := dc.outlier_detector_config,
    normalizer_config := dc.normalizer_config,
    save_dir := dc.save_dir }

/-- The measurement-config part of `DatasetConfig.from_dict`. -/
def mapMCFromDict (l : List (String × MCDict)) :
    Except String (List (String × MeasurementConfig)) :=
  match l with
  | [] => .ok []
  | (k, d) :: rest =>
      match measurementConfigFromDict d with
      | .error e => .error e
      | .ok cfg =>
          match mapMCFromDict rest with
          | .error e => .error e
          | .ok rest2 => .ok ((k, cfg) :: rest2)

/-- `DatasetConfig.from_dict` followed by the constructor. -/
def datasetConfigFromDict (d : DCDict) : Except String DatasetConfig :=
  match mapMCFromDict d.measurement_configs with
  | .error e => .error e
  | .ok mcs =>
      mkDatasetConfig
        { measurement_configs := mcs,
          min_events_per_subject := d.min_events_per_subject,
          agg_by_time_scale := d.agg_by_time_scale,
          min_valid_column_observations := d.min_valid_column_observations,
          min_valid_vocab_element_observations := d.min_valid_vocab_element_observations,
          min_true_float_frequency := d.min_true_float_frequency,
          min_unique_numerical_observations := d.min_unique_numerical_observations,
          outlier_detector_config := d.outlier_detector_config,
          normalizer_config := d.normalizer_config,
          save_dir := d.save_dir }

/-! ## Serialization of `InputDFSchema` / `DatasetSchema`

Both classes use the default `JSONableMixin` methods: `to_dict` is
`dataclasses.asdict` (the dataclass fields as a plain dictionary) and
`from_dict` is `cls(**as_dict)` (re-running `__post_init__`). -/

/-- `dataclasses.asdict` of a constructed `InputDFSchema`, read back as
constructor arguments (the normalized schema fields are lists). -/
def InputDFSchema.toArgs (s : InputDFSchema) : InputDFSchemaArgs :=
  { input_df := s.input_df, type := s.type, event_type := s.event_type,
    subject_id_col := s.subject_id_col, ts_col := s.ts_col,
    start_ts_col := s.start_ts_col, end_ts_col := s.end_ts_col,
    ts_format := s.ts_format, start_ts_format := s.start_ts_format,
    end_ts_format := s.end_ts_format,
    data_schema := s.data_schema.map DFSchemaSpec.many,
    start_data_schema := s.start_data_schema.map DFSchemaSpec.many,
    end_data_schema := s.end_data_schema.map DFSchemaSpec.many,
    must_have := s.must_have }

/-- `InputDFSchema.from_dict` (`cls(**as_dict)`). -/
def inputDFSchemaFromDict (a : InputDFSchemaArgs) : Except String InputDFSchema :=
  mkInputDFSchema a

/-- `DatasetSchema.to_dict`: the static and dynamic schemas become plain
dictionaries. -/
def datasetSchemaToDict (ds : DatasetSchema) :
    Option SchemaOrDict × List SchemaOrDict :=
  (some (.raw ds.static.toArgs), ds.dynamic.map (fun v => SchemaOrDict.raw v.toArgs))

/-- `DatasetSchema.from_dict` (`cls(**as_dict)`). -/
def datasetSchemaFromDict (p : Option SchemaOrDict × List SchemaOrDict) :
    Except String (DatasetSchema × List String) :=
  mkDatasetSchema p.1 p.2

/-- A concrete range source given only the shared `data_schema` (a C2
round-trip failure case). -/
def rangeSharedArgs : InputDFSchemaArgs :=
  { input_df := some "rng", type := some InputDFType.range,
    event_type := some (.str "ev"), start_ts_col := some (.one "st"),
    end_ts_col := some (.one "en"),
    data_schema := some (.single (.oneCol "c" (.plain .float))) }

/-- The schema `rangeSharedArgs` constructs: the shared schema has been copied
into the start and end slots while also remaining set. -/
def rangeSharedSchema : InputDFSchema :=
  { input_df := some "rng", type := some InputDFType.range,
    event_type := some (.triple "ev" "ev_START" "ev_END"), subject_id_col := none,
    ts_col := none, start_ts_col := some (.one "st"), end_ts_col := some (.one "en"),
    ts_format := none, start_ts_format := none, end_ts_format := none,
    data_schema := some [.oneCol "c" (.plain .float)],
    start_data_schema := some [.oneCol "c" (.plain .float)],
    end_data_schema := some [.oneCol "c" (.plain .float)], must_have := [] }

/-- A concrete `DatasetSchema` with one dynamic source (a C2 round-trip
failure case: the inherited subject-id column makes the serialized dynamic
schema fail re-construction). -/
def exampleDatasetSchema : DatasetSchema :=
  { static := exampleStaticSchema,
    dynamic := [{ exampleDynSchema with subject_id_col := some "sid" }] }

/-- A concrete dynamic multi-label measurement config (witness input; its
name is unset and will be filled from the dictionary key). -/
def exampleMeasurementArgs : MeasurementConfig :=
  { temporality := some TemporalityType.dynamic,
    modality := some DataModality.multi_label_classification }

/-- The same measurement config with its name filled in. -/
def exampleMeasurement : MeasurementConfig :=
  { name := some "m", temporality := some TemporalityType.dynamic,
    modality := some DataModality.multi_label_classification }

/-- A concrete `DatasetConfig` before construction. -/
def exampleDatasetConfig0 : DatasetConfig :=
  { measurement_configs := [("m", exampleMeasurementArgs)] }

/-- The `DatasetConfig` that `exampleDatasetConfig0` constructs. -/
def exampleDatasetConfig : DatasetConfig :=
  { measurement_configs := [("m", exampleMeasurement)] }

/-! ## Helper lemmas -/

@[simp] theorem isErr_error {ε α : Type} (e : ε) : isErr (.error e : Except ε α) = true := rfl
@[simp] theorem isErr_ok {ε α : Type} (a : α) : isErr (.ok a : Except ε α) = false := rfl

theorem aset_of_lookup_eq {α : Type} (l : List (String × α)) (k : String) (v : α)
    (h : alookup l k = some v) : aset l k v = l := by
  induction l with
  | nil => simp [alookup] at h
  | cons hd tl ih =>
      obtain ⟨k2, v2⟩ := hd
      by_cases hk : k2 = k
      · subst hk
        simp [alookup] at h
        simp [aset, h]
      · simp [alookup, hk] at h
        simp [aset, hk, ih h]

theorem alookup_eq_none_iff {α : Type} (l : List (String × α)) (k : String) :
    alookup l k = none ↔ k ∉ l.map Prod.fst := by
  induction l with
  | nil => simp [alookup]
  | cons hd tl ih =>
      obtain ⟨k2, v2⟩ := hd
      by_cases hk : k2 = k
      · subst hk; simp [alookup]
      · simp [alookup, hk, ih, Ne.symm hk]

theorem countP_add_countP_not {α : Type} (l : List α) (p : α → Bool) :
    l.countP p + l.countP (fun x => !(p x)) = l.length := by
  induction l with
  | nil => simp
  | cons h t ih => by_cases hp : p h <;> simp [hp] <;> omega

/-- When both dictionaries have distinct keys and every measurement with a size
entry also has an offset entry, the length difference the source computes equals
the count of measurements with an offset entry but no size entry. -/
theorem length_sub_eq_countOffsetsWithoutSize (sizes offsets : List (String × Int))
    (hs : (sizes.map Prod.fst).Nodup) (ho : (offsets.map Prod.fst).Nodup)
    (hsub : ∀ k ∈ sizes.map Prod.fst, k ∈ offsets.map Prod.fst) :
    (offsets.length : Int) - (sizes.length : Int) =
      (countOffsetsWithoutSize sizes offsets : Int) := by
  have hcnt : countOffsetsWithoutSize sizes offsets =
      (offsets.map Prod.fst).countP (fun k => !(decide (k ∈ sizes.map Prod.fst))) := by
    rw [countOffsetsWithoutSize, ← List.countP_eq_length_filter, List.countP_map]
    apply List.countP_congr
    intro p _
    simp [Function.comp, Option.isNone_iff_eq_none, alookup_eq_none_iff]
  have hin : (offsets.map Prod.fst).countP (fun k => decide (k ∈ sizes.map Prod.fst)) =
      sizes.length := by
    rw [List.countP_eq_length_filter]
    have hperm : ((offsets.map Prod.fst).filter
        (fun k => decide (k ∈ sizes.map Prod.fst))).Perm (sizes.map Prod.fst) := by
      rw [List.perm_ext_iff_of_nodup (ho.filter _) hs]
      intro a
      simp only [List.mem_filter, decide_eq_true_eq]
      constructor
      · rintro ⟨_, ha⟩; exact ha
      · intro ha; exact ⟨hsub a ha, ha⟩
    have := hperm.length_eq
    simpa using this
  have hsplit := countP_add_countP_not (offsets.map Prod.fst)
      (fun k => decide (k ∈ sizes.map Prod.fst))
  rw [hcnt]
  have hlen : (offsets.map Prod.fst).length = offsets.length := List.length_map _ _
  omega

theorem validateRangeTs_ok_cases (s t : InputDFSchema) (h : validateRangeTs s = .ok t) :
    t = s ∨ t = { s with start_ts_format := s.ts_format, end_ts_format := s.ts_format,
                         ts_format := none } := by
  unfold validateRangeTs at h
  repeat' split at h
  all_goals simp_all

/-- `validateRangeTs` only touches the three timestamp-format fields. -/
theorem validateRangeTs_ok_fields (s t : InputDFSchema) (h : validateRangeTs s = .ok t) :
    t.event_type = s.event_type ∧ t.data_schema = s.data_schema
      ∧ t.start_data_schema = s.start_data_schema
      ∧ t.end_data_schema = s.end_data_schema := by
  rcases validateRangeTs_ok_cases s t h with h2 | h2 <;> subst h2 <;> exact ⟨rfl, rfl, rfl, rfl⟩

theorem validateRangeData_ok_event_type (s t : InputDFSchema)
    (h : validateRangeData s = .ok t) : t.event_type = s.event_type := by
  unfold validateRangeData at h
  split at h
  · repeat' split at h
    all_goals simp_all
    exact (validateRangeTs_ok_fields _ _ h).1
  · exact (validateRangeTs_ok_fields _ _ h).1

theorem validateRangeData_ok_shared (s t : InputDFSchema) (ds : List DFSchemaItem)
    (hds : s.data_schema = some ds) (h : validateRangeData s = .ok t) :
    t.data_schema = some ds ∧ t.start_data_schema = some ds
      ∧ t.end_data_schema = some ds := by
  unfold validateRangeData at h
  rw [hds] at h
  repeat' split at h
  all_goals simp_all
  obtain ⟨h1, h2, h3, h4⟩ := validateRangeTs_ok_fields _ _ h
  simp_all

@[simp] theorem initSchema_input_df (a : InputDFSchemaArgs) :
    (initSchema a).input_df = a.input_df := rfl
@[simp] theorem initSchema_type (a : InputDFSchemaArgs) :
    (initSchema a).type = a.type := rfl
@[simp] theorem initSchema_event_type (a : InputDFSchemaArgs) :
    (initSchema a).event_type = a.event_type := rfl
@[simp] theorem initSchema_data_schema (a : InputDFSchemaArgs) :
    (initSchema a).data_schema = a.data_schema.map DFSchemaSpec.toList := rfl
@[simp] theorem initSchema_start_data_schema (a : InputDFSchemaArgs) :
    (initSchema a).start_data_schema = a.start_data_schema.map DFSchemaSpec.toList := rfl
@[simp] theorem initSchema_end_data_schema (a : InputDFSchemaArgs) :
    (initSchema a).end_data_schema = a.end_data_schema.map DFSchemaSpec.toList := rfl

theorem mk_ok_dispatch (a : InputDFSchemaArgs) (s : InputDFSchema)
    (h : mkInputDFSchema a = .ok s) : typeDispatch (initSchema a) = .ok s := by
  unfold mkInputDFSchema at h
  repeat' split at h
  all_goals simp_all

theorem typeDispatch_eq_range (s : InputDFSchema)
    (h : s.type = some InputDFType.range) : typeDispatch s = validateRange s := by
  unfold typeDispatch
  rw [h]

theorem validateRange_none (s : InputDFSchema) (h : s.event_type = none) :
    validateRange s = .error "Missing mandatory range parameter event_type!" := by
  unfold validateRange
  rw [h]

theorem validateRange_other (s : InputDFSchema) (h : s.event_type = some .other) :
    validateRange s =
      .error "event_type must be a string or a 3-element tuple (eq_type, st_type, end_type) for ranges." := by
  unfold validateRange
  rw [h]

theorem validateRange_str (s : InputDFSchema) (x : String)
    (h : s.event_type = some (.str x)) :
    validateRange s = validateRangeData
      { s with event_type := some (.triple x (x ++ "_START") (x ++ "_END")) } := by
  unfold validateRange
  rw [h]

theorem validateRange_triple (s : InputDFSchema) (x y z : String)
    (h : s.event_type = some (.triple x y z)) :
    validateRange s = validateRangeData { s with event_type := some (.triple x y z) } := by
  unfold validateRange
  rw [h]

theorem validateRangeData_conflict (s : InputDFSchema) (ds : List DFSchemaItem)
    (h1 : s.data_schema = some ds)
    (h2 : s.start_data_schema.isSome ∨ s.end_data_schema.isSome) :
    isErr (validateRangeData s) = true := by
  unfold validateRangeData
  rw [h1]
  rcases h2 with h2 | h2
  · simp [h2]
  · by_cases h3 : s.start_data_schema.isSome <;> simp [h2, h3]

/-- The start-side conflict of the shared-schema rule carries the
`cannot be simultaneously set` error. -/
theorem validateRangeData_conflict_start (s : InputDFSchema)
    (ds : List DFSchemaItem) (h1 : s.data_schema = some ds)
    (h2 : s.start_data_schema.isSome = true) :
    validateRangeData s
      = .error "start_data_schema cannot be simultaneously set with data_schema!" := by
  unfold validateRangeData
  rw [h1]
  simp [h2]

/-- The end-side conflict (with no start-side schema) carries the
`cannot be simultaneously set` error for the end slot. -/
theorem validateRangeData_conflict_end (s : InputDFSchema)
    (ds : List DFSchemaItem) (h1 : s.data_schema = some ds)
    (h2 : s.start_data_schema = none) (h3 : s.end_data_schema.isSome = true) :
    validateRangeData s
      = .error "end_data_schema cannot be simultaneously set with data_schema!" := by
  unfold validateRangeData
  rw [h1]
  simp [h2, h3]

/-- An error raised inside the per-type dispatch propagates out of
`__post_init__` unchanged. -/
theorem mk_error_of_dispatch (a : InputDFSchemaArgs) (e : String)
    (hin : a.input_df ≠ none) (hty : a.type ≠ none)
    (h : typeDispatch (initSchema a) = .error e) :
    mkInputDFSchema a = .error e := by
  unfold mkInputDFSchema
  have h1 : a.input_df.isNone = false := by
    simp [Option.isSome_iff_ne_none, hin]
  have h2 : a.type.isNone = false := by
    simp [Option.isSome_iff_ne_none, hty]
  rw [h1, h2]
  simp [h]

theorem mk_isErr_of_dispatch (a : InputDFSchemaArgs)
    (h : isErr (typeDispatch (initSchema a)) = true) :
    isErr (mkInputDFSchema a) = true := by
  cases hd : typeDispatch (initSchema a) with
  | ok t => rw [hd] at h; simp at h
  | error e =>
      unfold mkInputDFSchema
      split
      · simp
      · split
        · simp
        · rw [hd]
          simp

/-! ### Constructor idempotence for `InputDFSchema` (used by C2) -/

theorem initSchema_toArgs (s : InputDFSchema) :
    initSchema (InputDFSchema.toArgs s) = s := by
  have hmap : ∀ o : Option (List DFSchemaItem),
      (o.map DFSchemaSpec.many).map DFSchemaSpec.toList = o := by
    intro o
    cases o <;> simp [DFSchemaSpec.toList]
  simp [initSchema, InputDFSchema.toArgs, hmap]

theorem mk_ok_parts (a : InputDFSchemaArgs) (s : InputDFSchema)
    (h : mkInputDFSchema a = .ok s) :
    a.input_df ≠ none ∧ a.type ≠ none
      ∧ typeDispatch (initSchema a) = .ok s
      ∧ ∃ cols, columnsToLoad s = .ok cols := by
  unfold mkInputDFSchema at h
  split at h
  · simp at h
  next hin =>
    split at h
    · simp at h
    next hty =>
      split at h
      · simp at h
      next s1 hd =>
        split at h
        · simp at h
        next cols hc =>
          simp only [Except.ok.injEq] at h
          subst h
          exact ⟨by simpa using hin, by simpa using hty, hd, cols, hc⟩

theorem validateStatic_ok_eq (s0 s : InputDFSchema)
    (h : validateStatic s0 = .ok s) : s = s0 := by
  unfold validateStatic at h
  repeat' split at h
  all_goals simp_all

theorem validateStatic_idem (s0 s : InputDFSchema)
    (h : validateStatic s0 = .ok s) : validateStatic s = .ok s := by
  have he := validateStatic_ok_eq s0 s h
  subst he
  exact h

theorem validateEvent_ok_eq (s0 s : InputDFSchema)
    (h : validateEvent s0 = .ok s) : s = s0 := by
  unfold validateEvent at h
  repeat' split at h
  all_goals simp_all

theorem validateEvent_idem (s0 s : InputDFSchema)
    (h : validateEvent s0 = .ok s) : validateEvent s = .ok s := by
  have he := validateEvent_ok_eq s0 s h
  subst he
  exact h

theorem validateRangeTs_idem (s0 s : InputDFSchema)
    (h : validateRangeTs s0 = .ok s) : validateRangeTs s = .ok s := by
  unfold validateRangeTs at h
  split at h
  · simp at h
  next h1 =>
    split at h
    · simp at h
    next h2 =>
      split at h
      · simp at h
      next h3 =>
        split at h
        · simp at h
        next h4 =>
          split at h
          next f hf =>
            split at h
            · simp at h
            next h5 =>
              split at h
              · simp at h
              next h6 =>
                simp only [Except.ok.injEq] at h
                subst h
                unfold validateRangeTs
                simp [h1, h2, h3, h4, hf, h5, h6]
          next hf =>
            split at h
            · simp at h
            next h5 =>
              simp only [Except.ok.injEq] at h
              subst h
              unfold validateRangeTs
              simp only [h1, h2, h3, h4]
              cases hts : s0.ts_format with
              | none => simp [hts, hf, h5]
              | some f => simp [hts, hf, h5]

theorem validateRangeData_none_eq (s : InputDFSchema)
    (h : s.data_schema = none) : validateRangeData s = validateRangeTs s := by
  unfold validateRangeData
  rw [h]

theorem validateRangeData_ok_pres (s0 s : InputDFSchema)
    (h : validateRangeData s0 = .ok s) :
    s.input_df = s0.input_df ∧ s.type = s0.type
      ∧ s.data_schema = s0.data_schema := by
  unfold validateRangeData at h
  split at h
  · repeat' split at h
    all_goals simp_all
    rcases validateRangeTs_ok_cases _ _ h with h2 | h2 <;> subst h2 <;>
      exact ⟨rfl, rfl, by simp_all⟩
  next hds =>
    rcases validateRangeTs_ok_cases _ _ h with h2 | h2 <;> subst h2 <;>
      exact ⟨rfl, rfl, rfl⟩

theorem validateRangeData_ok_vts (s0 s : InputDFSchema)
    (hds : s0.data_schema = none) (h : validateRangeData s0 = .ok s) :
    validateRangeTs s0 = .ok s := by
  rw [validateRangeData_none_eq s0 hds] at h
  exact h

theorem validateRange_ok_shape (s0 s : InputDFSchema)
    (h : validateRange s0 = .ok s) :
    ∃ x y z, s0.event_type = some (.str x) ∨ s0.event_type = some (.triple x y z) := by
  unfold validateRange at h
  split at h
  · simp at h
  · simp at h
  next x y z hev => exact ⟨x, y, z, Or.inr hev⟩
  next x hev => exact ⟨x, x, x, Or.inl hev⟩

theorem validateRange_ok_pres (s0 s : InputDFSchema)
    (h : validateRange s0 = .ok s) :
    s.input_df = s0.input_df ∧ s.type = s0.type
      ∧ s.data_schema = s0.data_schema
      ∧ ∃ x y z, s.event_type = some (.triple x y z) := by
  unfold validateRange at h
  split at h
  · simp at h
  · simp at h
  next x y z hev =>
      obtain ⟨h1, h2, h3⟩ := validateRangeData_ok_pres _ _ h
      have h4 := validateRangeData_ok_event_type _ _ h
      exact ⟨h1, h2, h3, x, y, z, by simpa using h4⟩
  next x hev =>
      obtain ⟨h1, h2, h3⟩ := validateRangeData_ok_pres _ _ h
      have h4 := validateRangeData_ok_event_type _ _ h
      exact ⟨h1, h2, h3, x, x ++ "_START", x ++ "_END", by simpa using h4⟩

theorem validateRange_idem (s0 s : InputDFSchema)
    (h : validateRange s0 = .ok s) (hds : s.data_schema = none) :
    validateRange s = .ok s := by
  obtain ⟨_, _, hdata, x, y, z, hev⟩ := validateRange_ok_pres s0 s h
  have hds0 : s0.data_schema = none := by rw [← hdata]; exact hds
  rw [validateRange_triple s x y z hev]
  have heta : ({ s with event_type := some (.triple x y z) } : InputDFSchema) = s := by
    rw [← hev]
  rw [heta]
  rw [validateRangeData_none_eq s hds]
  -- extract the inner validateRangeTs success from h
  unfold validateRange at h
  split at h
  · simp at h
  · simp at h
  next a b c hev0 =>
      have hds1 : ({ s0 with event_type := some (.triple a b c) } : InputDFSchema).data_schema = none := hds0
      have hvts := validateRangeData_ok_vts _ _ hds1 h
      exact validateRangeTs_idem _ _ hvts
  next a hev0 =>
      have hds1 : ({ s0 with
          event_type := some (.triple a (a ++ "_START") (a ++ "_END")) } :
            InputDFSchema).data_schema = none := hds0
      have hvts := validateRangeData_ok_vts _ _ hds1 h
      exact validateRangeTs_idem _ _ hvts

theorem typeDispatch_ok_pres (s0 s : InputDFSchema)
    (h : typeDispatch s0 = .ok s) :
    s.input_df = s0.input_df ∧ s.type = s0.type ∧ s.data_schema = s0.data_schema := by
  unfold typeDispatch at h
  split at h
  · have he := validateStatic_ok_eq _ _ h; subst he; exact ⟨rfl, rfl, rfl⟩
  · have he := validateEvent_ok_eq _ _ h; subst he; exact ⟨rfl, rfl, rfl⟩
  · obtain ⟨h1, h2, h3, _⟩ := validateRange_ok_pres _ _ h; exact ⟨h1, h2, h3⟩
  · simp only [Except.ok.injEq] at h; subst h; exact ⟨rfl, rfl, rfl⟩

theorem typeDispatch_idem (s0 s : InputDFSchema)
    (h : typeDispatch s0 = .ok s)
    (hrange : s.type = some InputDFType.range → s.data_schema = none) :
    typeDispatch s = .ok s := by
  obtain ⟨_, hty, _⟩ := typeDispatch_ok_pres s0 s h
  unfold typeDispatch at h
  split at h
  next hty0 =>
      have he := validateStatic_ok_eq _ _ h
      subst he
      unfold typeDispatch
      rw [hty0]
      exact h
  next hty0 =>
      have he := validateEvent_ok_eq _ _ h
      subst he
      unfold typeDispatch
      rw [hty0]
      exact h
  next hty0 =>
      unfold typeDispatch
      rw [hty, hty0]
      exact validateRange_idem s0 s h (hrange (by rw [hty, hty0]))
  next hty0 =>
      simp only [Except.ok.injEq] at h
      subst h
      unfold typeDispatch
      rw [hty0]

/-- The `InputDFSchema` constructor applied to the serialized fields of one of
its own successful outputs succeeds with the same output, provided the schema
is not a range schema that was given the shared `data_schema`. -/
theorem mkInputDFSchema_roundtrip (a : InputDFSchemaArgs) (s : InputDFSchema)
    (h : mkInputDFSchema a = .ok s)
    (hrange : s.type = some InputDFType.range → s.data_schema = none) :
    mkInputDFSchema (InputDFSchema.toArgs s) = .ok s := by
  obtain ⟨hin, hty, hd, cols, hc⟩ := mk_ok_parts a s h
  obtain ⟨hinp, htyp, _⟩ := typeDispatch_ok_pres _ _ hd
  have hin2 : s.input_df.isNone = false := by
    rw [hinp, initSchema_input_df]
    simpa [Option.isSome_iff_ne_none] using hin
  have hty2 : s.type.isNone = false := by
    rw [htyp, initSchema_type]
    simpa [Option.isSome_iff_ne_none] using hty
  have hidem := typeDispatch_idem _ _ hd hrange
  unfold mkInputDFSchema
  have hargs1 : (InputDFSchema.toArgs s).input_df = s.input_df := rfl
  have hargs2 : (InputDFSchema.toArgs s).type = s.type := rfl
  rw [hargs1, hargs2, hin2, hty2, initSchema_toArgs, hidem]
  simp [hc]

theorem mkStatic_raw_ok (a : InputDFSchemaArgs) (st : InputDFSchema)
    (h : mkStatic (some (.raw a)) = .ok st) :
    mkInputDFSchema a = .ok st ∧ st.is_static = true := by
  have h2 : (match mkInputDFSchema a with
      | Except.error e => Except.error e
      | Except.ok s =>
        if s.is_static = true then Except.ok s
        else Except.error "Must pass a static schema config for static.") = Except.ok st := h
  split at h2
  · simp at h2
  next s hmk =>
    split at h2
    next hs =>
      simp only [Except.ok.injEq] at h2
      subst h2
      exact ⟨hmk, hs⟩
    · simp at h2

/-- The `DatasetSchema` constructor applied to the serialized form of one of
its own successful outputs (built from a plain static dictionary) succeeds
with the same output, provided there are no dynamic sources. -/
theorem mkDatasetSchema_roundtrip (a : InputDFSchemaArgs)
    (dynIn : List SchemaOrDict) (ds : DatasetSchema) (ws : List String)
    (h : mkDatasetSchema (some (.raw a)) dynIn = .ok (ds, ws))
    (hdyn : ds.dynamic = []) :
    datasetSchemaFromDict (datasetSchemaToDict ds) = .ok (ds, []) := by
  unfold mkDatasetSchema at h
  split at h
  · simp at h
  next st hms =>
    split at h
    · simp at h
    next hsub =>
      split at h
      · simp at h
      next dyn ws2 hpd =>
        simp only [Except.ok.injEq, Prod.mk.injEq] at h
        obtain ⟨hds, hws⟩ := h
        obtain ⟨hmk, hst⟩ := mkStatic_raw_ok a st hms
        subst hds
        simp only at hdyn
        subst hdyn
        have htys : st.type = some InputDFType.static := by
          simpa [InputDFSchema.is_static] using hst
        have hmk2 : mkInputDFSchema st.toArgs = .ok st := by
          apply mkInputDFSchema_roundtrip a st hmk
          intro hr
          rw [htys] at hr
          exact absurd hr (by simp)
        have hsub2 : st.subject_id_col.isNone = false := by
          simpa [Option.isSome_iff_ne_none] using hsub
        unfold datasetSchemaFromDict datasetSchemaToDict mkDatasetSchema mkStatic
        simp [hmk2, hst, hsub2, processDynamic]

/-! ### Validation idempotence for `MeasurementConfig` (used by C2) -/

theorem tempCheck_ok_cases (mc0 mc : MeasurementConfig) (h : tempCheck mc0 = .ok mc) :
    mc = mc0 ∨ ∃ f, mc0.functor = some f ∧ mc0.modality = none
      ∧ mc = { mc0 with modality := some f.outputModality } := by
  unfold tempCheck at h
  repeat' split at h
  all_goals simp_all

theorem tempCheck_idem (mc0 mc : MeasurementConfig) (h : tempCheck mc0 = .ok mc) :
    tempCheck mc = .ok mc := by
  unfold tempCheck at h
  split at h
  -- static
  next htmp =>
    split at h
    · simp at h
    next hfun =>
      split at h
      · simp at h
      next hnum =>
        simp only [Except.ok.injEq] at h
        subst h
        unfold tempCheck
        simp [htmp, hfun, hnum]
  -- dynamic
  next htmp =>
    split at h
    · simp at h
    next hfun =>
      split at h
      · simp at h
      next hsl =>
        simp only [Except.ok.injEq] at h
        subst h
        unfold tempCheck
        simp [htmp, hfun, hsl]
  -- functional_time_dependent
  next htmp =>
    split at h
    · simp at h
    next f hf =>
      split at h
      next hmod =>
        simp only [Except.ok.injEq] at h
        subst h
        unfold tempCheck
        simp [htmp, hf]
      next m hmod =>
        split at h
        next hm =>
          simp only [Except.ok.injEq] at h
          subst h
          unfold tempCheck
          simp [htmp, hf, hmod, hm]
        · simp at h
  -- None temporality
  next htmp => simp at h

theorem validate_ok_parts (mc0 mc : MeasurementConfig)
    (h : mc0._validate = .ok mc) :
    tempCheck mc0 = .ok mc ∧ modalityErrs mc = .ok [] := by
  unfold MeasurementConfig._validate at h
  split at h
  · simp at h
  next mc2 htc =>
    split at h
    · simp at h
    next hme =>
      simp only [Except.ok.injEq] at h
      subst h
      exact ⟨htc, hme⟩
    · simp at h

theorem validate_idem (mc0 mc : MeasurementConfig) (h : mc0._validate = .ok mc) :
    mc._validate = .ok mc := by
  obtain ⟨htc, hme⟩ := validate_ok_parts mc0 mc h
  have htc2 := tempCheck_idem mc0 mc htc
  unfold MeasurementConfig._validate
  simp [htc2, hme]

theorem modalityErrs_table (mc : MeasurementConfig) (t : MMTable)
    (h : modalityErrs mc = .ok []) (hmm : mc._measurement_metadata = some (.table t)) :
    mc.modality = some DataModality.multivariate_regression := by
  unfold modalityErrs at h
  split at h <;> simp_all

theorem modalityErrs_series (mc : MeasurementConfig) (sr : MMSeries)
    (h : modalityErrs mc = .ok []) (hmm : mc._measurement_metadata = some (.series sr)) :
    mc.modality = some DataModality.univariate_regression := by
  unfold modalityErrs at h
  split at h <;> simp_all

theorem tempCheck_ok_functor_ftd (mc0 mc : MeasurementConfig)
    (h : tempCheck mc0 = .ok mc) (f : TDFunctor) (hf : mc.functor = some f) :
    mc.temporality = some TemporalityType.functional_time_dependent := by
  rcases tempCheck_ok_cases mc0 mc h with he | ⟨f2, hf2, hm2, he⟩ <;> subst he
  all_goals
    unfold tempCheck at h
    repeat' split at h
    all_goals simp_all

theorem functorFromDict_toDict (f : TDFunctor) :
    functorFromDict f.toDict = .ok f := by
  cases f <;> rfl

/-- `MeasurementConfig.from_dict (cfg.to_dict())` reproduces any
self-validating configuration. -/
theorem measurementConfig_roundtrip (mc : MeasurementConfig)
    (h : mc._validate = .ok mc) :
    measurementConfigFromDict mc.toDict = .ok mc := by
  obtain ⟨htc, hme⟩ := validate_ok_parts mc mc h
  have hmm : mmFromDict (MeasurementConfig.toDict mc)._measurement_metadata
      (MeasurementConfig.toDict mc).modality = .ok mc._measurement_metadata := by
    cases hm : mc._measurement_metadata with
    | none => simp [MeasurementConfig.toDict, hm, mmFromDict]
    | some md =>
        cases md with
        | storedPath p => simp [MeasurementConfig.toDict, hm, mmFromDict]
        | table t =>
            have hmod := modalityErrs_table mc t hme hm
            simp [MeasurementConfig.toDict, hm, hmod, mmFromDict]
        | series sr =>
            have hmod := modalityErrs_series mc sr hme hm
            simp [MeasurementConfig.toDict, hm, hmod, mmFromDict]
  have hfn : funFromDict (MeasurementConfig.toDict mc).functor
      (MeasurementConfig.toDict mc).temporality = .ok mc.functor := by
    cases hf : mc.functor with
    | none => simp [MeasurementConfig.toDict, hf, funFromDict]
    | some f =>
        have htmp := tempCheck_ok_functor_ftd mc mc htc f hf
        simp [MeasurementConfig.toDict, hf, htmp, funFromDict, functorFromDict_toDict]
  unfold measurementConfigFromDict
  rw [hmm, hfn]
  exact h

/-! ### Constructor idempotence for `DatasetConfig` (used by C2) -/

theorem validate_name_pres (mc0 mc : MeasurementConfig)
    (h : mc0._validate = .ok mc) : mc.name = mc0.name := by
  obtain ⟨htc, _⟩ := validate_ok_parts mc0 mc h
  rcases tempCheck_ok_cases mc0 mc htc with he | ⟨f, _, _, he⟩ <;> subst he <;> rfl

theorem fillNames_names (l l2 : List (String × MeasurementConfig))
    (h : fillNames l = .ok l2) : ∀ p ∈ l2, p.2.name = some p.1 := by
  induction l generalizing l2 with
  | nil =>
      unfold fillNames at h
      simp only [Except.ok.injEq] at h
      subst h
      simp
  | cons hd tl ih =>
      obtain ⟨k, cfg⟩ := hd
      unfold fillNames at h
      split at h
      · split at h
        · simp at h
        next rest2 hrest =>
          simp only [Except.ok.injEq] at h
          subst h
          intro p hp
          rcases List.mem_cons.mp hp with he | hmem
          · subst he; rfl
          · exact ih rest2 hrest p hmem
      next n hn =>
        split at h
        · simp at h
        next hne =>
          split at h
          · simp at h
          next rest2 hrest =>
            simp only [Except.ok.injEq] at h
            subst h
            intro p hp
            rcases List.mem_cons.mp hp with he | hmem
            · subst he
              simp only [hn]
              simp only [ne_eq, Decidable.not_not] at hne
              rw [hne]
            · exact ih rest2 hrest p hmem

theorem fillNames_fixed (l : List (String × MeasurementConfig))
    (h : ∀ p ∈ l, p.2.name = some p.1) : fillNames l = .ok l := by
  induction l with
  | nil => rfl
  | cons hd tl ih =>
      obtain ⟨k, cfg⟩ := hd
      have hname : cfg.name = some k := h (k, cfg) (List.mem_cons_self _ _)
      have hrest : fillNames tl = .ok tl :=
        ih (fun p hp => h p (List.mem_cons_of_mem _ hp))
      unfold fillNames
      simp [hname, hrest]

theorem revalidateAll_valid (l l2 : List (String × MeasurementConfig))
    (h : revalidateAll l = .ok l2) : ∀ p ∈ l2, p.2._validate = .ok p.2 := by
  induction l generalizing l2 with
  | nil =>
      unfold revalidateAll at h
      simp only [Except.ok.injEq] at h
      subst h
      simp
  | cons hd tl ih =>
      obtain ⟨k, cfg⟩ := hd
      unfold revalidateAll at h
      split at h
      · simp at h
      next cfg2 hv =>
        split at h
        · simp at h
        next rest2 hrest =>
          simp only [Except.ok.injEq] at h
          subst h
          intro p hp
          rcases List.mem_cons.mp hp with he | hmem
          · subst he
            exact validate_idem cfg cfg2 hv
          · exact ih rest2 hrest p hmem

theorem revalidateAll_names (l l2 : List (String × MeasurementConfig))
    (h : revalidateAll l = .ok l2) (hn : ∀ p ∈ l, p.2.name = some p.1) :
    ∀ p ∈ l2, p.2.name = some p.1 := by
  induction l generalizing l2 with
  | nil =>
      unfold revalidateAll at h
      simp only [Except.ok.injEq] at h
      subst h
      simp
  | cons hd tl ih =>
      obtain ⟨k, cfg⟩ := hd
      unfold revalidateAll at h
      split at h
      · simp at h
      next cfg2 hv =>
        split at h
        · simp at h
        next rest2 hrest =>
          simp only [Except.ok.injEq] at h
          subst h
          intro p hp
          rcases List.mem_cons.mp hp with he | hmem
          · subst he
            have := validate_name_pres cfg cfg2 hv
            rw [this]
            exact hn (k, cfg) (List.mem_cons_self _ _)
          · exact ih rest2 hrest (fun p hp => hn p (List.mem_cons_of_mem _ hp)) p hmem

theorem revalidateAll_fixed (l : List (String × MeasurementConfig))
    (h : ∀ p ∈ l, p.2._validate = .ok p.2) : revalidateAll l = .ok l := by
  induction l with
  | nil => rfl
  | cons hd tl ih =>
      obtain ⟨k, cfg⟩ := hd
      have hv : cfg._validate = .ok cfg := h (k, cfg) (List.mem_cons_self _ _)
      have hrest : revalidateAll tl = .ok tl :=
        ih (fun p hp => h p (List.mem_cons_of_mem _ hp))
      unfold revalidateAll
      simp [hv, hrest]

theorem mapMCFromDict_roundtrip (l : List (String × MeasurementConfig))
    (h : ∀ p ∈ l, p.2._validate = .ok p.2) :
    mapMCFromDict (l.map (fun p => (p.1, p.2.toDict))) = .ok l := by
  induction l with
  | nil => rfl
  | cons hd tl ih =>
      obtain ⟨k, cfg⟩ := hd
      have hv : cfg._validate = .ok cfg := h (k, cfg) (List.mem_cons_self _ _)
      have hone := measurementConfig_roundtrip cfg hv
      have hrest := ih (fun p hp => h p (List.mem_cons_of_mem _ hp))
      unfold mapMCFromDict
      simp [hone, hrest]

theorem mkDatasetConfig_inv (dc0 dc : DatasetConfig)
    (h : mkDatasetConfig dc0 = .ok dc) :
    ∃ mcs1, fillNames dc0.measurement_configs = .ok mcs1
      ∧ checkCountOrProp "min_valid_column_observations"
          dc0.min_valid_column_observations = .ok ()
      ∧ checkCountOrProp "min_valid_vocab_element_observations"
          dc0.min_valid_vocab_element_observations = .ok ()
      ∧ checkCountOrProp "min_unique_numerical_observations"
          dc0.min_unique_numerical_observations = .ok ()
      ∧ checkProportion "min_true_float_frequency"
          dc0.min_true_float_frequency = .ok ()
      ∧ checkStrategyConfig "outlier_detector_config"
          dc0.outlier_detector_config = .ok ()
      ∧ checkStrategyConfig "normalizer_config" dc0.normalizer_config = .ok ()
      ∧ revalidateAll mcs1 = .ok dc.measurement_configs
      ∧ dc = { dc0 with measurement_configs := dc.measurement_configs } := by
  unfold mkDatasetConfig at h
  split at h
  · simp at h
  next mcs1 hfn =>
    split at h
    · simp at h
    next u1 hc1 =>
      split at h
      · simp at h
      next u2 hc2 =>
        split at h
        · simp at h
        next u3 hc3 =>
          split at h
          · simp at h
          next u4 hc4 =>
            split at h
            · simp at h
            next u5 hc5 =>
              split at h
              · simp at h
              next u6 hc6 =>
                split at h
                · simp at h
                next mcs2 hrv =>
                  simp only [Except.ok.injEq] at h
                  subst h
                  cases u1
                  cases u2
                  cases u3
                  cases u4
                  cases u5
                  cases u6
                  exact ⟨mcs1, hfn, hc1, hc2, hc3, hc4, hc5, hc6, hrv, rfl⟩

/-- `DatasetConfig.from_dict (cfg.to_dict())` reproduces any constructed
configuration. -/
theorem datasetConfig_roundtrip (dc0 dc : DatasetConfig)
    (h : mkDatasetConfig dc0 = .ok dc) :
    datasetConfigFromDict dc.toDict = .ok dc := by
  obtain ⟨mcs1, hfn, hc1, hc2, hc3, hc4, hc5, hc6, hrv, heq⟩ :=
    mkDatasetConfig_inv dc0 dc h
  have hvalid := revalidateAll_valid mcs1 dc.measurement_configs hrv
  have hnames := revalidateAll_names mcs1 dc.measurement_configs hrv
    (fillNames_names dc0.measurement_configs mcs1 hfn)
  have hf1 : dc.min_valid_column_observations = dc0.min_valid_column_observations := by
    rw [heq]
  have hf2 : dc.min_valid_vocab_element_observations
      = dc0.min_valid_vocab_element_observations := by rw [heq]
  have hf3 : dc.min_unique_numerical_observations
      = dc0.min_unique_numerical_observations := by rw [heq]
  have hf4 : dc.min_true_float_frequency = dc0.min_true_float_frequency := by rw [heq]
  have hf5 : dc.outlier_detector_config = dc0.outlier_detector_config := by rw [heq]
  have hf6 : dc.normalizer_config = dc0.normalizer_config := by rw [heq]
  have hfn2 : fillNames dc.measurement_configs = .ok dc.measurement_configs :=
    fillNames_fixed dc.measurement_configs hnames
  have hrv2 : revalidateAll dc.measurement_configs = .ok dc.measurement_configs :=
    revalidateAll_fixed dc.measurement_configs hvalid
  have hmap := mapMCFromDict_roundtrip dc.measurement_configs hvalid
  have hf7 : dc.min_events_per_subject = dc0.min_events_per_subject := by rw [heq]
  have hf8 : dc.agg_by_time_scale = dc0.agg_by_time_scale := by rw [heq]
  have hf9 : dc.save_dir = dc0.save_dir := by rw [heq]
  unfold datasetConfigFromDict DatasetConfig.toDict
  simp only [hmap]
  unfold mkDatasetConfig
  simp only [hfn2, hf1, hf2, hf3, hf4, hf5, hf6, hc1, hc2, hc3, hc4, hc5, hc6, hrv2]
  simp only [hf7, hf8, hf9]
  conv_rhs => rw [heq]

/-! ### Claim C1 -/

/-- C1: In `InputDFSchema._unify_schema` (via `__add_to_schema`), adding an
entry for a source column `in_col` that is already present in the accumulated
canonical mapping with a different `(out_col, dt)` pair raises an error, while
re-adding the exact same pair succeeds and leaves the mapping unchanged;
consequently unifying two shorthand entries that map the same source column
identically succeeds, and unifying two that map it differently fails. -/
theorem C1_unify_conflict_policy :
    (∀ (cont : SchemaMap) (c out : String) (dt : ColDT),
        alookup cont c = some (out, dt) →
        addToSchema cont c dt (some out) = .ok cont)
    ∧ (∀ (cont : SchemaMap) (c out : String) (dt : ColDT) (p : String × ColDT),
        alookup cont c = some p → p ≠ (out, dt) →
        isErr (addToSchema cont c dt (some out)) = true)
    ∧ (∀ (c o : String) (d : ColDT),
        unifySchema
            (some [.colToDT [(c, .outAndDT o d)], .colToDT [(c, .outAndDT o d)]])
          = .ok [(c, (o, d))])
    ∧ (∀ (c o o2 : String) (d d2 : ColDT), (o, d) ≠ (o2, d2) →
        isErr (unifySchema
            (some [.colToDT [(c, .outAndDT o d)], .colToDT [(c, .outAndDT o2 d2)]]))
          = true) := by
  refine ⟨?_, ?_, ?_, ?_⟩
  · intro cont c out dt h
    simp [addToSchema, h, aset_of_lookup_eq cont c (out, dt) h]
  · intro cont c out dt p h hne
    simp [addToSchema, h, hne]
  · intro c o d
    simp [unifySchema, unifySchemaLoop, unifyOneSchema, addDictToSchema,
      addToSchema, alookup, aset]
  · intro c o o2 d d2 hne
    simp [unifySchema, unifySchemaLoop, unifyOneSchema, addDictToSchema,
      addToSchema, alookup, aset, hne]

/-- Witness for C1 at concrete inputs: re-adding `a -> (b, categorical)` to a
mapping already holding it is a no-op, re-adding `a` with a different type is an
error, and the two-entry unifications behave as claimed. -/
theorem C1_unify_conflict_policy_witness :
    addToSchema [("a", ("b", .plain .categorical))] "a" (.plain .categorical) (some "b")
        = .ok [("a", ("b", .plain .categorical))]
    ∧ isErr (addToSchema [("a", ("b", .plain .categorical))] "a" (.plain .float) (some "b"))
        = true
    ∧ unifySchema (some [.colToDT [("a", .outAndDT "b" (.plain .categorical))],
          .colToDT [("a", .outAndDT "b" (.plain .categorical))]])
        = .ok [("a", ("b", .plain .categorical))]
    ∧ isErr (unifySchema (some [.colToDT [("a", .outAndDT "b" (.plain .categorical))],
          .colToDT [("a", .outAndDT "c" (.plain .categorical))]])) = true := by
  refine ⟨?_, ?_, ?_, ?_⟩
  · exact C1_unify_conflict_policy.1 [("a", ("b", .plain .categorical))] "a" "b"
      (.plain .categorical) (by decide)
  · exact C1_unify_conflict_policy.2.1 [("a", ("b", .plain .categorical))] "a" "b"
      (.plain .float) ("b", .plain .categorical) (by decide) (by decide)
  · exact C1_unify_conflict_policy.2.2.1 "a" "b" (.plain .categorical)
  · exact C1_unify_conflict_policy.2.2.2 "a" "b" "c" (.plain .categorical)
      (.plain .categorical) (by decide)

/-! ### Claim C2 -/

/-- C2 counterexample: serialization round trips are not the identity on every
validly constructed configuration.  (1) A range `InputDFSchema` given only the
shared `data_schema` constructs successfully, but its serialized form holds
`data_schema` alongside the copied `start_data_schema`/`end_data_schema` and
is rejected by `from_dict`.  (2) A `DatasetSchema` with one dynamic source
constructs successfully (inheriting the static subject-id column), but its
serialized dynamic schema then carries a non-`None` `subject_id_col` and is
rejected by `from_dict` (subject-id columns are forbidden on non-static
sources). -/
theorem C2_roundtrip_counterexample :
    (mkInputDFSchema rangeSharedArgs = .ok rangeSharedSchema
      ∧ isErr (inputDFSchemaFromDict rangeSharedSchema.toArgs) = true)
    ∧ (mkDatasetSchema (some (.typed exampleStaticSchema)) [.typed exampleDynSchema]
        = .ok (exampleDatasetSchema, [])
      ∧ isErr (datasetSchemaFromDict (datasetSchemaToDict exampleDatasetSchema))
          = true) := by
  refine ⟨⟨?_, ?_⟩, ?_, ?_⟩ <;> rfl

/-- C2 (amended): `from_dict(to_dict(cfg)) == cfg` holds for every validly
constructed `MeasurementConfig` and `DatasetConfig`; for every validly
constructed `InputDFSchema` **except** a range schema that was given the shared
`data_schema` (whose serialized form violates the shared-versus-start/end
exclusivity check); and for every `DatasetSchema` built from a plain static
dictionary **provided it has no dynamic sources** (a serialized dynamic source
carries the inherited subject-id column, which re-construction rejects).  The
`DatasetSchema` round trip also returns no warnings. -/
theorem C2_serialization_roundtrip :
    (∀ (a : InputDFSchemaArgs) (s : InputDFSchema),
        mkInputDFSchema a = .ok s →
        (s.type = some InputDFType.range → s.data_schema = none) →
        inputDFSchemaFromDict (InputDFSchema.toArgs s) = .ok s)
    ∧ (∀ (a : InputDFSchemaArgs) (dynIn : List SchemaOrDict) (ds : DatasetSchema)
          (ws : List String),
        mkDatasetSchema (some (.raw a)) dynIn = .ok (ds, ws) → ds.dynamic = [] →
        datasetSchemaFromDict (datasetSchemaToDict ds) = .ok (ds, []))
    ∧ (∀ (mc0 mc : MeasurementConfig), mkMeasurementConfig mc0 = .ok mc →
        measurementConfigFromDict mc.toDict = .ok mc)
    ∧ (∀ (dc0 dc : DatasetConfig), mkDatasetConfig dc0 = .ok dc →
        datasetConfigFromDict dc.toDict = .ok dc) := by
  refine ⟨?_, ?_, ?_, ?_⟩
  · intro a s h hr
    exact mkInputDFSchema_roundtrip a s h hr
  · intro a dynIn ds ws h hd
    exact mkDatasetSchema_roundtrip a dynIn ds ws h hd
  · intro mc0 mc h
    exact measurementConfig_roundtrip mc (validate_idem mc0 mc h)
  · intro dc0 dc h
    exact datasetConfig_roundtrip dc0 dc h

/-- Witness for C2 at concrete inputs: the round trip reproduces a concrete
event `InputDFSchema`, a `DatasetSchema` with no dynamic sources, a dynamic
multi-label `MeasurementConfig`, and a one-measurement `DatasetConfig`. -/
theorem C2_serialization_roundtrip_witness :
    inputDFSchemaFromDict (InputDFSchema.toArgs exampleEventSchema)
      = .ok exampleEventSchema
    ∧ datasetSchemaFromDict (datasetSchemaToDict
        { static := exampleStaticSchema, dynamic := [] })
      = .ok ({ static := exampleStaticSchema, dynamic := [] }, [])
    ∧ measurementConfigFromDict exampleMeasurement.toDict = .ok exampleMeasurement
    ∧ datasetConfigFromDict exampleDatasetConfig.toDict = .ok exampleDatasetConfig := by
  refine ⟨?_, ?_, ?_, ?_⟩
  · exact C2_serialization_roundtrip.1 exampleEventArgs exampleEventSchema (by rfl)
      (by intro hr; simp [exampleEventSchema] at hr)
  · exact C2_serialization_roundtrip.2.1 exampleStaticSchema.toArgs []
      { static := exampleStaticSchema, dynamic := [] } [] (by rfl) rfl
  · exact C2_serialization_roundtrip.2.2.1 exampleMeasurement exampleMeasurement (by rfl)
  · exact C2_serialization_roundtrip.2.2.2 exampleDatasetConfig0 exampleDatasetConfig
      (by rfl)

/-! ### Claim C3 -/

/-- C3 counterexample: for sizes `{a: 10}` and offsets `{b: 5}` the code
returns `10 + 5 + (len(offsets) - len(sizes)) = 15`, while the formula of the
claim (sum of sizes, plus minimum offset, plus the count of measurements that
have an offset entry but no size entry) gives `10 + 5 + 1 = 16`. -/
theorem C3_total_vocab_size_counterexample :
    totalVocabSize ⟨some [("a", 10)], some [("b", 5)], none, none, none⟩ = .ok 15
    ∧ sumVals [("a", 10)] + 5
        + (countOffsetsWithoutSize [("a", 10)] [("b", 5)] : Int) = 16 := by
  constructor
  · rfl
  · decide

/-- C3 (amended): for every `VocabularyConfig` with non-`None` size and offset
dictionaries (offsets non-empty), **in which the dictionaries have distinct keys
and every measurement with a size entry also has an offset entry**,
`total_vocab_size` equals the sum of all per-measurement vocabulary sizes, plus
the minimum offset value across all measurements, plus the count of
measurements that have an offset entry but no size entry; in particular, for
sizes `{a:10, b:3}` and offsets `{a:5, b:15, c:18}` it returns 19 (see the
witness). -/
theorem C3_total_vocab_size (sizes offsets : List (String × Int))
    (o : String × Int) (rest : List (String × Int)) (hoff : offsets = o :: rest)
    (hs : (sizes.map Prod.fst).Nodup) (ho : (offsets.map Prod.fst).Nodup)
    (hsub : ∀ k ∈ sizes.map Prod.fst, k ∈ offsets.map Prod.fst) :
    totalVocabSize ⟨some sizes, some offsets, none, none, none⟩
      = .ok (sumVals sizes + minValsFrom o.2 (rest.map Prod.snd)
          + (countOffsetsWithoutSize sizes offsets : Int)) := by
  subst hoff
  rw [← length_sub_eq_countOffsetsWithoutSize sizes (o :: rest) hs ho hsub]
  rfl

/-- Witness for C3 at the schema of the claim: sizes `{a:10, b:3}`, offsets
`{a:5, b:15, c:18}` give a total vocabulary size of 19. -/
theorem C3_total_vocab_size_witness :
    totalVocabSize ⟨some [("a", 10), ("b", 3)], some [("a", 5), ("b", 15), ("c", 18)],
        none, none, none⟩ = .ok 19 := by
  have h := C3_total_vocab_size [("a", 10), ("b", 3)]
      [("a", 5), ("b", 15), ("c", 18)] ("a", 5) [("b", 15), ("c", 18)] rfl
      (by decide) (by decide) (by decide)
  rw [h]
  rfl

/-! ### Claim C10 -/

/-- C10: `total_vocab_size` is partial: it raises an exception (embedded as
`Except.error`) whenever `vocab_sizes_by_measurement` or
`vocab_offsets_by_measurement` is `None`, or the offsets dictionary is empty;
it returns a value exactly when both dictionaries are set and the offsets
dictionary is non-empty. -/
theorem C10_total_vocab_size_partial (c : VocabularyConfig) :
    (∃ v, totalVocabSize c = .ok v) ↔
      (c.vocab_sizes_by_measurement ≠ none
        ∧ c.vocab_offsets_by_measurement ≠ none
        ∧ c.vocab_offsets_by_measurement ≠ some []) := by
  obtain ⟨s, o, i1, i2, i3⟩ := c
  cases s with
  | none => simp [totalVocabSize]
  | some sizes =>
      cases o with
      | none => simp [totalVocabSize]
      | some offsets =>
          cases offsets with
          | nil => simp [totalVocabSize]
          | cons hd tl => simp [totalVocabSize]

/-! ### Claim C4 -/

/-- C4: for every range-type `InputDFSchema`, construction with `event_type`
equal to a single literal string `X` yields (when it succeeds) `event_type`
expanded to `(X, X_START, X_END)`; an explicit 3-tuple is kept unchanged; and
`event_type` of any other shape (including `None`) is rejected at
construction. -/
theorem C4_range_event_type_expansion :
    (∀ (a : InputDFSchemaArgs) (x : String) (s : InputDFSchema),
        a.type = some InputDFType.range → a.event_type = some (.str x) →
        mkInputDFSchema a = .ok s →
        s.event_type = some (.triple x (x ++ "_START") (x ++ "_END")))
    ∧ (∀ (a : InputDFSchemaArgs) (x y z : String) (s : InputDFSchema),
        a.type = some InputDFType.range → a.event_type = some (.triple x y z) →
        mkInputDFSchema a = .ok s → s.event_type = some (.triple x y z))
    ∧ (∀ (a : InputDFSchemaArgs),
        a.type = some InputDFType.range →
        (a.event_type = none ∨ a.event_type = some .other) →
        isErr (mkInputDFSchema a) = true) := by
  refine ⟨?_, ?_, ?_⟩
  · intro a x s ht he h
    have hd := mk_ok_dispatch a s h
    rw [typeDispatch_eq_range _ (by simp [ht])] at hd
    rw [validateRange_str _ x (by simp [he])] at hd
    have hev := validateRangeData_ok_event_type _ _ hd
    simpa using hev
  · intro a x y z s ht he h
    have hd := mk_ok_dispatch a s h
    rw [typeDispatch_eq_range _ (by simp [ht])] at hd
    rw [validateRange_triple _ x y z (by simp [he])] at hd
    have hev := validateRangeData_ok_event_type _ _ hd
    simpa using hev
  · intro a ht he
    cases hin : a.input_df with
    | none => simp [mkInputDFSchema, hin]
    | some v =>
        have hd := typeDispatch_eq_range (initSchema a) (by simp [ht])
        rcases he with he | he
        · rw [validateRange_none _ (by simp [he])] at hd
          simp [mkInputDFSchema, hin, ht, hd]
        · rw [validateRange_other _ (by simp [he])] at hd
          simp [mkInputDFSchema, hin, ht, hd]

/-- Witness for C4 at concrete inputs: a range schema given
`event_type="ev"` constructs with the expanded 3-tuple, one given the
explicit 3-tuple keeps it, and one given no `event_type` fails. -/
theorem C4_range_event_type_expansion_witness :
    (mkInputDFSchema
        { input_df := some "rng", type := some InputDFType.range,
          event_type := some (.str "ev"), start_ts_col := some (.one "st"),
          end_ts_col := some (.one "en") }).map (fun s => s.event_type)
      = .ok (some (.triple "ev" "ev_START" "ev_END"))
    ∧ (mkInputDFSchema
        { input_df := some "rng", type := some InputDFType.range,
          event_type := some (.triple "e" "s" "x"), start_ts_col := some (.one "st"),
          end_ts_col := some (.one "en") }).map (fun s => s.event_type)
      = .ok (some (.triple "e" "s" "x"))
    ∧ isErr (mkInputDFSchema
        { input_df := some "rng", type := some InputDFType.range,
          start_ts_col := some (.one "st"), end_ts_col := some (.one "en") }) = true := by
  refine ⟨?_, ?_, ?_⟩
  · have h := C4_range_event_type_expansion.1
      { input_df := some "rng", type := some InputDFType.range,
        event_type := some (.str "ev"), start_ts_col := some (.one "st"),
        end_ts_col := some (.one "en") } "ev"
    cases hmk : mkInputDFSchema
        { input_df := some "rng", type := some InputDFType.range,
          event_type := some (.str "ev"), start_ts_col := some (.one "st"),
          end_ts_col := some (.one "en") } with
    | error e =>
        have hne : isErr (mkInputDFSchema
            { input_df := some "rng", type := some InputDFType.range,
              event_type := some (.str "ev"), start_ts_col := some (.one "st"),
              end_ts_col := some (.one "en") }) = false := by decide
        rw [hmk] at hne
        simp at hne
    | ok s => simp [Except.map, h s rfl rfl hmk]
  · have h := C4_range_event_type_expansion.2.1
      { input_df := some "rng", type := some InputDFType.range,
        event_type := some (.triple "e" "s" "x"), start_ts_col := some (.one "st"),
        end_ts_col := some (.one "en") } "e" "s" "x"
    cases hmk : mkInputDFSchema
        { input_df := some "rng", type := some InputDFType.range,
          event_type := some (.triple "e" "s" "x"), start_ts_col := some (.one "st"),
          end_ts_col := some (.one "en") } with
    | error e =>
        have hne : isErr (mkInputDFSchema
            { input_df := some "rng", type := some InputDFType.range,
              event_type := some (.triple "e" "s" "x"), start_ts_col := some (.one "st"),
              end_ts_col := some (.one "en") }) = false := by decide
        rw [hmk] at hne
        simp at hne
    | ok s => simp [Except.map, h s rfl rfl hmk]
  · exact C4_range_event_type_expansion.2.2
      { input_df := some "rng", type := some InputDFType.range,
        start_ts_col := some (.one "st"), end_ts_col := some (.one "en") }
      rfl (Or.inl rfl)

/-! ### Claim C5 -/

/-- C5 counterexample: with `event_type` unset, a range schema supplying both
the shared `data_schema` and a `start_data_schema` fails with the
missing-mandatory `event_type` error, not a forbidden-field error — the
`event_type` match at the top of the `RANGE` branch precedes the
shared-schema conflict check — so the claim `always fails at construction
with a forbidden-field error` does not hold as to the error kind. -/
theorem C5_range_shared_data_schema_counterexample :
    mkInputDFSchema
        { input_df := some "rng", type := some InputDFType.range,
          start_ts_col := some (.one "st"), end_ts_col := some (.one "en"),
          data_schema := some (.single (.oneCol "c" (.plain .float))),
          start_data_schema := some (.single (.oneCol "c" (.plain .float))) }
      = .error "Missing mandatory range parameter event_type!"
    ∧ "Missing mandatory range parameter event_type!"
        ≠ "start_data_schema cannot be simultaneously set with data_schema!"
    ∧ "Missing mandatory range parameter event_type!"
        ≠ "end_data_schema cannot be simultaneously set with data_schema!" := by
  refine ⟨rfl, by decide, by decide⟩

/-- C5 (amended): for every range-type `InputDFSchema`, supplying a non-`None`
shared `data_schema` together with a non-`None` `start_data_schema` (or
`end_data_schema`) always fails at construction; the failure carries the
forbidden-field (`cannot be simultaneously set`) error whenever `input_df` is
supplied and `event_type` is a literal string or an explicit 3-tuple (an
unset or malformed `event_type`, or a missing `input_df`, is rejected first
with its own missing-mandatory/type error); and if only the shared
`data_schema` is supplied, a successful construction has copied it into both
`start_data_schema` and `end_data_schema`. -/
theorem C5_range_shared_data_schema :
    (∀ (a : InputDFSchemaArgs),
        a.type = some InputDFType.range → a.data_schema ≠ none →
        (a.start_data_schema ≠ none ∨ a.end_data_schema ≠ none) →
        isErr (mkInputDFSchema a) = true)
    ∧ (∀ (a : InputDFSchemaArgs) (et : EventTypeSpec),
        a.type = some InputDFType.range → a.input_df ≠ none →
        a.event_type = some et → et ≠ .other →
        a.data_schema ≠ none → a.start_data_schema ≠ none →
        mkInputDFSchema a
          = .error "start_data_schema cannot be simultaneously set with data_schema!")
    ∧ (∀ (a : InputDFSchemaArgs) (et : EventTypeSpec),
        a.type = some InputDFType.range → a.input_df ≠ none →
        a.event_type = some et → et ≠ .other →
        a.data_schema ≠ none → a.start_data_schema = none →
        a.end_data_schema ≠ none →
        mkInputDFSchema a
          = .error "end_data_schema cannot be simultaneously set with data_schema!")
    ∧ (∀ (a : InputDFSchemaArgs) (d : DFSchemaSpec) (s : InputDFSchema),
        a.type = some InputDFType.range → a.data_schema = some d →
        mkInputDFSchema a = .ok s →
        s.data_schema = some d.toList ∧ s.start_data_schema = some d.toList
          ∧ s.end_data_schema = some d.toList) := by
  refine ⟨?_, ?_, ?_, ?_⟩
  · intro a ht hds hconf
    apply mk_isErr_of_dispatch
    rw [typeDispatch_eq_range _ (by simp [ht])]
    obtain ⟨d, hd2⟩ := Option.ne_none_iff_exists.mp hds
    have hself : (initSchema a).data_schema = some d.toList := by simp [← hd2]
    have hs1 : (initSchema a).start_data_schema.isSome
        ∨ (initSchema a).end_data_schema.isSome := by
      rcases hconf with hc | hc
      · exact Or.inl (by simp [Option.isSome_iff_ne_none, hc])
      · exact Or.inr (by simp [Option.isSome_iff_ne_none, hc])
    cases hev : a.event_type with
    | none => rw [validateRange_none _ (by simp [hev])]; simp
    | some et =>
        cases et with
        | str x =>
            rw [validateRange_str _ x (by simp [hev])]
            exact validateRangeData_conflict _ d.toList (by simpa using hself)
              (by simpa using hs1)
        | triple x y z =>
            rw [validateRange_triple _ x y z (by simp [hev])]
            exact validateRangeData_conflict _ d.toList (by simpa using hself)
              (by simpa using hs1)
        | other => rw [validateRange_other _ (by simp [hev])]; simp
  · intro a et ht hin hev hno hds hsds
    obtain ⟨d, hd2⟩ := Option.ne_none_iff_exists.mp hds
    have hself : (initSchema a).data_schema = some d.toList := by simp [← hd2]
    have hstart : (initSchema a).start_data_schema.isSome = true := by
      simp [Option.isSome_iff_ne_none, hsds]
    apply mk_error_of_dispatch a _ hin (by simp [ht])
    rw [typeDispatch_eq_range _ (by simp [ht])]
    cases et with
    | other => exact absurd rfl hno
    | str x =>
        rw [validateRange_str _ x (by simp [hev])]
        exact validateRangeData_conflict_start _ d.toList (by simpa using hself)
          (by simpa using hstart)
    | triple x y z =>
        rw [validateRange_triple _ x y z (by simp [hev])]
        exact validateRangeData_conflict_start _ d.toList (by simpa using hself)
          (by simpa using hstart)
  · intro a et ht hin hev hno hds hsn hed
    obtain ⟨d, hd2⟩ := Option.ne_none_iff_exists.mp hds
    have hself : (initSchema a).data_schema = some d.toList := by simp [← hd2]
    have hsn2 : (initSchema a).start_data_schema = none := by simp [hsn]
    have hend : (initSchema a).end_data_schema.isSome = true := by
      simp [Option.isSome_iff_ne_none, hed]
    apply mk_error_of_dispatch a _ hin (by simp [ht])
    rw [typeDispatch_eq_range _ (by simp [ht])]
    cases et with
    | other => exact absurd rfl hno
    | str x =>
        rw [validateRange_str _ x (by simp [hev])]
        exact validateRangeData_conflict_end _ d.toList (by simpa using hself)
          (by simpa using hsn2) (by simpa using hend)
    | triple x y z =>
        rw [validateRange_triple _ x y z (by simp [hev])]
        exact validateRangeData_conflict_end _ d.toList (by simpa using hself)
          (by simpa using hsn2) (by simpa using hend)
  · intro a d s ht hds h
    have hd := mk_ok_dispatch a s h
    rw [typeDispatch_eq_range _ (by simp [ht])] at hd
    cases hev : a.event_type with
    | none => rw [validateRange_none _ (by simp [hev])] at hd; simp at hd
    | some et =>
        cases et with
        | str x =>
            rw [validateRange_str _ x (by simp [hev])] at hd
            have := validateRangeData_ok_shared _ _ d.toList (by simp [hds]) hd
            simpa using this
        | triple x y z =>
            rw [validateRange_triple _ x y z (by simp [hev])] at hd
            have := validateRangeData_ok_shared _ _ d.toList (by simp [hds]) hd
            simpa using this
        | other => rw [validateRange_other _ (by simp [hev])] at hd; simp at hd

/-- Witness for C5 at concrete inputs: with a literal `event_type` set, a
range schema with both `data_schema` and `start_data_schema` fails with the
start-side forbidden-field error, one with `data_schema` and
`end_data_schema` fails with the end-side forbidden-field error, and one with
only `data_schema` succeeds with the shared schema copied into both sides. -/
theorem C5_range_shared_data_schema_witness :
    isErr (mkInputDFSchema
        { input_df := some "rng", type := some InputDFType.range,
          event_type := some (.str "ev"), start_ts_col := some (.one "st"),
          end_ts_col := some (.one "en"),
          data_schema := some (.single (.oneCol "c" (.plain .float))),
          start_data_schema := some (.single (.oneCol "c" (.plain .float))) }) = true
    ∧ mkInputDFSchema
        { input_df := some "rng", type := some InputDFType.range,
          event_type := some (.str "ev"), start_ts_col := some (.one "st"),
          end_ts_col := some (.one "en"),
          data_schema := some (.single (.oneCol "c" (.plain .float))),
          start_data_schema := some (.single (.oneCol "c" (.plain .float))) }
      = .error "start_data_schema cannot be simultaneously set with data_schema!"
    ∧ mkInputDFSchema
        { input_df := some "rng", type := some InputDFType.range,
          event_type := some (.str "ev"), start_ts_col := some (.one "st"),
          end_ts_col := some (.one "en"),
          data_schema := some (.single (.oneCol "c" (.plain .float))),
          end_data_schema := some (.single (.oneCol "c" (.plain .float))) }
      = .error "end_data_schema cannot be simultaneously set with data_schema!"
    ∧ (mkInputDFSchema
        { input_df := some "rng", type := some InputDFType.range,
          event_type := some (.str "ev"), start_ts_col := some (.one "st"),
          end_ts_col := some (.one "en"),
          data_schema := some (.single (.oneCol "c" (.plain .float))) }).map
        (fun s => (s.start_data_schema, s.end_data_schema))
      = .ok (some [.oneCol "c" (.plain .float)], some [.oneCol "c" (.plain .float)]) := by
  refine ⟨?_, ?_, ?_, ?_⟩
  · exact C5_range_shared_data_schema.1
      { input_df := some "rng", type := some InputDFType.range,
        event_type := some (.str "ev"), start_ts_col := some (.one "st"),
        end_ts_col := some (.one "en"),
        data_schema := some (.single (.oneCol "c" (.plain .float))),
        start_data_schema := some (.single (.oneCol "c" (.plain .float))) }
      rfl (by decide) (Or.inl (by decide))
  · exact C5_range_shared_data_schema.2.1
      { input_df := some "rng", type := some InputDFType.range,
        event_type := some (.str "ev"), start_ts_col := some (.one "st"),
        end_ts_col := some (.one "en"),
        data_schema := some (.single (.oneCol "c" (.plain .float))),
        start_data_schema := some (.single (.oneCol "c" (.plain .float))) }
      (.str "ev") rfl (by decide) rfl (by decide) (by decide) (by decide)
  · exact C5_range_shared_data_schema.2.2.1
      { input_df := some "rng", type := some InputDFType.range,
        event_type := some (.str "ev"), start_ts_col := some (.one "st"),
        end_ts_col := some (.one "en"),
        data_schema := some (.single (.oneCol "c" (.plain .float))),
        end_data_schema := some (.single (.oneCol "c" (.plain .float))) }
      (.str "ev") rfl (by decide) rfl (by decide) (by decide) rfl (by decide)
  · have h := C5_range_shared_data_schema.2.2.2
      { input_df := some "rng", type := some InputDFType.range,
        event_type := some (.str "ev"), start_ts_col := some (.one "st"),
        end_ts_col := some (.one "en"),
        data_schema := some (.single (.oneCol "c" (.plain .float))) }
      (.single (.oneCol "c" (.plain .float)))
    cases hmk : mkInputDFSchema
        { input_df := some "rng", type := some InputDFType.range,
          event_type := some (.str "ev"), start_ts_col := some (.one "st"),
          end_ts_col := some (.one "en"),
          data_schema := some (.single (.oneCol "c" (.plain .float))) } with
    | error e =>
        have hne : isErr (mkInputDFSchema
            { input_df := some "rng", type := some InputDFType.range,
              event_type := some (.str "ev"), start_ts_col := some (.one "st"),
              end_ts_col := some (.one "en"),
              data_schema := some (.single (.oneCol "c" (.plain .float))) }) = false := by
          decide
        rw [hmk] at hne
        simp at hne
    | ok s =>
        obtain ⟨h1, h2, h3⟩ := h s rfl rfl hmk
        simp [Except.map, h2, h3, DFSchemaSpec.toList]

/-! ### Claim C9 -/

/-- C9: `columns_to_load` performs no duplicate check between data-schema
columns and timestamp columns: for the valid event-type source
`exampleEventArgs`, whose `ts_col` name `a` also appears as a source column in
`data_schema`, the load list contains `a` twice, once with its data-schema
type (`categorical`) and once with the timestamp type. -/
theorem C9_columns_to_load_ts_duplicate :
    mkInputDFSchema exampleEventArgs = .ok exampleEventSchema
    ∧ columnsToLoad exampleEventSchema
        = .ok [("a", ColDT.plain .categorical), ("a", ColDT.plain .timestamp)]
    ∧ ColDT.plain InputDataType.categorical ≠ ColDT.plain InputDataType.timestamp := by
  refine ⟨by rfl, by rfl, by decide⟩

/-! ### Claim C6 -/

/-- C6 counterexample: a `MeasurementConfig` with temporality dynamic and
modality single-label-classification but with a functor also set fails with
the forbidden-functor error, not the incompatible-combination error, so the
claim `always fails with an incompatible-combination error, regardless of the
other fields` does not hold as to the error kind. -/
theorem C6_dynamic_single_label_counterexample :
    mkMeasurementConfig
        { temporality := some TemporalityType.dynamic,
          modality := some DataModality.single_label_classification,
          functor := some TDFunctor.timeOfDay }
      = .error "functor should be None for dynamic measurements!"
    ∧ "functor should be None for dynamic measurements!" ≠ errDynamicSingleLabel := by
  constructor
  · rfl
  · decide

/-- C6 (amended): for every `MeasurementConfig` with temporality dynamic and
modality single-label-categorical, construction / re-validation via
`_validate` always fails, regardless of the other fields; the error is the
incompatible-combination error whenever the functor field is unset (a functor
set on a dynamic measurement is itself rejected first, with the
forbidden-functor error). -/
theorem C6_dynamic_single_label (mc : MeasurementConfig)
    (ht : mc.temporality = some TemporalityType.dynamic)
    (hm : mc.modality = some DataModality.single_label_classification) :
    isErr (mkMeasurementConfig mc) = true
    ∧ (mc.functor = none →
        mkMeasurementConfig mc = .error errDynamicSingleLabel) := by
  unfold mkMeasurementConfig MeasurementConfig._validate tempCheck
  rw [ht]
  by_cases hf : mc.functor.isSome
  · simp [hf]
    intro hn
    rw [hn] at hf
    simp at hf
  · simp [hf, hm]

/-- Witness for C6 at a concrete input: temporality dynamic, modality
single-label-classification, everything else unset, fails with the
incompatible-combination error. -/
theorem C6_dynamic_single_label_witness :
    isErr (mkMeasurementConfig
        { temporality := some TemporalityType.dynamic,
          modality := some DataModality.single_label_classification }) = true
    ∧ mkMeasurementConfig
        { temporality := some TemporalityType.dynamic,
          modality := some DataModality.single_label_classification }
      = .error errDynamicSingleLabel := by
  have h := C6_dynamic_single_label
    { temporality := some TemporalityType.dynamic,
      modality := some DataModality.single_label_classification } rfl rfl
  exact ⟨h.1, h.2 rfl⟩

/-! ### Claim C7 -/

/-- C7: for a `DatasetSchema` whose static source has subject-id column `S`,
every dynamic source entering construction with `subject_id_col` unset ends up
with `subject_id_col = S`, and every dynamic source with an explicit
`subject_id_col = T ≠ S` keeps its own column while construction succeeds with
only the mismatch warning (never an error). -/
theorem C7_dynamic_subject_id_col :
    (∀ (st dyn : InputDFSchema) (S : String) (out : DatasetSchema × List String),
        st.subject_id_col = some S → dyn.subject_id_col = none →
        mkDatasetSchema (some (.typed st)) [.typed dyn] = .ok out →
        out.1.dynamic = [{ dyn with subject_id_col := some S }])
    ∧ (∀ (st dyn : InputDFSchema) (S T : String),
        st.subject_id_col = some S → dyn.subject_id_col = some T → T ≠ S →
        dyn.is_static = false →
        mkDatasetSchema (some (.typed st)) [.typed dyn]
          = .ok ({ static := st, dynamic := [dyn] },
                 [subjectIdMismatchWarning dyn (some S)])) := by
  constructor
  · intro st dyn S out hst hdyn h
    by_cases hstat : ({ dyn with subject_id_col := some S } : InputDFSchema).is_static
    · simp [mkDatasetSchema, mkStatic, processDynamic, resolveSchema, hst, hdyn,
        hstat] at h
    · simp [mkDatasetSchema, mkStatic, processDynamic, resolveSchema, hst, hdyn,
        hstat] at h
      rw [← h]
  · intro st dyn S T hst hdyn hne hstat
    simp [mkDatasetSchema, mkStatic, processDynamic, resolveSchema, hst, hdyn,
      hne, hstat]

/-- Witness for C7 at concrete inputs: a dynamic event source without a
subject-id column inherits `sid` from the static source; one with the explicit
column `other` keeps it and construction succeeds with exactly the mismatch
warning. -/
theorem C7_dynamic_subject_id_col_witness :
    (∃ out, mkDatasetSchema (some (.typed exampleStaticSchema)) [.typed exampleDynSchema]
        = .ok out
      ∧ out.1.dynamic = [{ exampleDynSchema with subject_id_col := some "sid" }])
    ∧ mkDatasetSchema (some (.typed exampleStaticSchema))
        [.typed { exampleDynSchema with subject_id_col := some "other" }]
      = .ok ({ static := exampleStaticSchema,
               dynamic := [{ exampleDynSchema with subject_id_col := some "other" }] },
             [subjectIdMismatchWarning
               { exampleDynSchema with subject_id_col := some "other" } (some "sid")]) := by
  constructor
  · refine ⟨({ static := exampleStaticSchema,
               dynamic := [{ exampleDynSchema with subject_id_col := some "sid" }] }, []),
        ?_, ?_⟩
    · rfl
    · exact C7_dynamic_subject_id_col.1 exampleStaticSchema exampleDynSchema "sid" _
        rfl rfl (by rfl)
  · exact C7_dynamic_subject_id_col.2 exampleStaticSchema
      { exampleDynSchema with subject_id_col := some "other" } "sid" "other" rfl rfl
      (by decide) (by decide)

end ESGPT
